import Mathlib

/-!
Verification of the payment-reconciliation core (matching engine, currency and
date utilities, reporting/scoring logic) against its natural-language
specification.

The embedding mirrors the source modules:
  - `app/utils/date_utils.py`   : `days_between`, `hours_between`
  - `app/utils/currency.py`     : `convert_to_usd`, `convert_currency`
  - `app/config.py`             : `Settings`, `FX_RATES_TO_USD`
  - `app/services/matching.py`  : the five-phase `MatchingEngine`
  - `app/services/reporting.py` : priority, suggestion scoring, chargeback rate

Modelling conventions:
  - Python `Decimal` amounts and percentages are embedded as `ℚ` (the source
    uses exact decimal arithmetic; its 28-significant-digit division precision
    is never reached on the 2-fractional-digit money values in scope).
  - A civil date is an integer day number (days since the Unix epoch); a
    `datetime` instant is an integer count of seconds since the epoch.
    `datetime.combine(d, min.time())` lifts day `d` to `d * 86400` seconds, and
    `.date()` truncation is flooring division by 86400.
  - Python string truthiness (`if not x:` on an optional string) is `strTruthy`.
  - Database rows are structures without the generated `id`/`created_at`
    columns of `MatchResult`, which no claim mentions.
-/

/-! ### Time utilities (`app/utils/date_utils.py`) -/

/-- An argument of `days_between`: a civil `date` or a `datetime`, as in the
Python signature `date1: date | datetime`. -/
inductive DateOrDatetime where
  | d (day : ℤ)
  | ts (sec : ℤ)
deriving DecidableEq, Repr

/-- `datetime.date()` truncation: a `datetime` is floored to its civil date;
a `date` is left unchanged. -/
def DateOrDatetime.toDate : DateOrDatetime → ℤ
  | .d day => day
  | .ts sec => Int.fdiv sec 86400

/-- `days_between`: absolute number of whole days between two dates, datetimes
truncated to their civil date first (`abs((date2 - date1).days)`). -/
def days_between (date1 date2 : DateOrDatetime) : ℤ :=
  |date2.toDate - date1.toDate|

/-- `hours_between`: absolute difference in seconds divided by 3600. -/
def hours_between (dt1 dt2 : ℤ) : ℚ :=
  (|dt2 - dt1| : ℤ) / 3600

/-! ### Configuration (`app/config.py`) -/

/-- The matching-relevant fields of `Settings`. -/
structure Settings where
  AMOUNT_TOLERANCE_PERCENT : ℚ
  SETTLEMENT_WINDOW_HOURS : ℤ
  CHARGEBACK_WINDOW_DAYS : ℤ
  REFUND_WINDOW_DAYS : ℤ
  MIN_CONFIDENCE_FOR_AUTO_MATCH : ℤ
  CURRENCY_FX_TOLERANCE_PERCENT : ℚ
  ORPHAN_THRESHOLD_DAYS : ℤ
deriving DecidableEq, Repr

/-- The default configuration values of `Settings`. -/
def defaultSettings : Settings :=
  { AMOUNT_TOLERANCE_PERCENT := 5
    SETTLEMENT_WINDOW_HOURS := 72
    CHARGEBACK_WINDOW_DAYS := 90
    REFUND_WINDOW_DAYS := 30
    MIN_CONFIDENCE_FOR_AUTO_MATCH := 80
    CURRENCY_FX_TOLERANCE_PERCENT := 10
    ORPHAN_THRESHOLD_DAYS := 7 }

/-- A `Settings` value is valid when it satisfies the pydantic `Field` bounds
(`gt=0`, `le=100`, `ge=0` constraints of `app/config.py`). -/
def Settings.Valid (cfg : Settings) : Prop :=
  0 < cfg.AMOUNT_TOLERANCE_PERCENT ∧ cfg.AMOUNT_TOLERANCE_PERCENT ≤ 100 ∧
  0 < cfg.SETTLEMENT_WINDOW_HOURS ∧
  0 < cfg.CHARGEBACK_WINDOW_DAYS ∧
  0 < cfg.REFUND_WINDOW_DAYS ∧
  0 ≤ cfg.MIN_CONFIDENCE_FOR_AUTO_MATCH ∧ cfg.MIN_CONFIDENCE_FOR_AUTO_MATCH ≤ 100 ∧
  0 < cfg.CURRENCY_FX_TOLERANCE_PERCENT ∧ cfg.CURRENCY_FX_TOLERANCE_PERCENT ≤ 100 ∧
  0 < cfg.ORPHAN_THRESHOLD_DAYS

/-- `FX_RATES_TO_USD`: the static currency table of `app/config.py`
(`USD 1.0, MXN 0.058, COP 0.00025, BRL 0.20`). -/
def FX_RATES_TO_USD : List (String × ℚ) :=
  [("USD", 1), ("MXN", 58/1000), ("COP", 25/100000), ("BRL", 20/100)]

/-! ### Currency utilities (`app/utils/currency.py`) -/

/-- `FX_RATES_TO_USD.get(currency.upper(), Decimal("1.0"))`. -/
def fxRateToUsd (currency : String) : ℚ :=
  (FX_RATES_TO_USD.lookup currency.toUpper).getD 1

/-- `convert_to_usd`: multiply by the (defaulted) rate of the currency. -/
def convert_to_usd (amount : ℚ) (currency : String) : ℚ :=
  amount * fxRateToUsd currency

/-- `convert_currency`: pivot through USD; same-currency short-circuit; a zero
target rate returns the USD value unchanged. -/
def convert_currency (amount : ℚ) (from_currency to_currency : String) : ℚ :=
  if from_currency = to_currency then amount
  else
    let usd_amount := convert_to_usd amount from_currency
    let to_rate := fxRateToUsd to_currency
    if to_rate = 0 then usd_amount else usd_amount / to_rate

/-! ### Data model (`app/models/`) -/

/-- A `transactions` row (fields the core consumes). -/
structure Transaction where
  id : String
  transaction_id : String
  merchant_order_id : String
  amount : ℚ
  currency : String
  timestamp : ℤ
  status : String
deriving DecidableEq, Repr

/-- A `settlements` row (fields the core consumes). -/
structure Settlement where
  id : String
  settlement_reference : String
  amount : ℚ
  currency : String
  settlement_date : ℤ
  transaction_reference : Option String
deriving DecidableEq, Repr

/-- An `adjustments` row (fields the core consumes). -/
structure Adjustment where
  id : String
  adjustment_id : String
  transaction_reference : Option String
  amount : ℚ
  currency : String
  type : String
  date : ℤ
deriving DecidableEq, Repr

/-- A `match_results` row as built by the engine (the generated primary key and
`created_at` are omitted). -/
structure MatchResult where
  transaction_id : Option String
  settlement_id : Option String
  adjustment_id : Option String
  match_type : String
  confidence_score : ℤ
  match_reasons : List String
  amount_difference : ℚ
  date_difference_days : ℤ
  status : String
deriving DecidableEq, Repr

/-- Python truthiness of an optional string: `None` and `""` are falsy. -/
def strTruthy : Option String → Bool
  | none => false
  | some s => !s.isEmpty

/-! ### Matching engine (`app/services/matching.py`) -/

/-- The run-local mutable state of `MatchingEngine`: the three exclusion sets,
the list of `MatchResult`s built so far (in emission order), and the
`amount_mismatches` counter of `run_reconciliation`. -/
structure RunState where
  matched_transaction_ids : List String
  matched_settlement_ids : List String
  matched_adjustment_ids : List String
  results : List MatchResult
  amount_mismatches : ℕ
deriving DecidableEq, Repr

/-- The engine state at the start of a run. -/
def initialRunState : RunState :=
  { matched_transaction_ids := []
    matched_settlement_ids := []
    matched_adjustment_ids := []
    results := []
    amount_mismatches := 0 }

/-- The zero-aware relative amount difference used identically in phases 2-4:
an equal-zero pair is a perfect match, a positive transaction amount divides,
and any other case rejects the candidate (`continue`). -/
def amountDiffPercent (transactionAmount otherAmount : ℚ) : Option ℚ :=
  if transactionAmount = 0 ∧ otherAmount = 0 then some 0
  else if transactionAmount > 0 then
    some (|otherAmount - transactionAmount| / transactionAmount)
  else none

/-- The `MatchResult` built in phase 1 (`_phase1_exact_id_match`). -/
def mkPhase1Match (transaction : Transaction) (settlement : Settlement) : MatchResult :=
  { transaction_id := some transaction.id
    settlement_id := some settlement.id
    adjustment_id := none
    match_type := "transaction_settlement"
    confidence_score := 100
    match_reasons := ["exact_transaction_id_match", "currency_match"]
    amount_difference := |settlement.amount - transaction.amount|
    date_difference_days := days_between (.d settlement.settlement_date) (.ts transaction.timestamp)
    status := "matched" }

/-- One iteration of the settlement loop of `_phase1_exact_id_match`: skip a
settlement already matched or without a truthy reference, then take the first
unmatched transaction with the exact id and currency match (`break`). -/
def phase1Step (transactions : List Transaction) (σ : RunState) (settlement : Settlement) :
    RunState :=
  if σ.matched_settlement_ids.contains settlement.id then σ
  else if !strTruthy settlement.transaction_reference then σ
  else
    match transactions.find? (fun transaction =>
        !σ.matched_transaction_ids.contains transaction.id &&
        (settlement.transaction_reference == some transaction.transaction_id) &&
        (settlement.currency == transaction.currency)) with
    | none => σ
    | some transaction =>
      { σ with
        matched_transaction_ids := transaction.id :: σ.matched_transaction_ids
        matched_settlement_ids := settlement.id :: σ.matched_settlement_ids
        results := σ.results ++ [mkPhase1Match transaction settlement] }

/-- `_phase1_exact_id_match`. -/
def phase1_exact_id_match (transactions : List Transaction) (settlements : List Settlement)
    (σ : RunState) : RunState :=
  settlements.foldl (phase1Step transactions) σ

/-- The phase-2 candidate check and score for one (settlement, transaction)
pair: currency equality, amount tolerance, 72h-default date window, then
`80` plus the amount and date bonuses. Returns
`(confidence, amount_diff, day_diff)` or `none` for a rejected candidate. -/
def phase2Score (cfg : Settings) (settlement : Settlement) (transaction : Transaction) :
    Option (ℤ × ℚ × ℤ) :=
  if settlement.currency ≠ transaction.currency then none
  else
    let amount_diff := |settlement.amount - transaction.amount|
    match amountDiffPercent transaction.amount settlement.amount with
    | none => none
    | some amount_diff_percent =>
      if amount_diff_percent > cfg.AMOUNT_TOLERANCE_PERCENT / 100 then none
      else
        let settlement_dt : ℤ := settlement.settlement_date * 86400
        if hours_between settlement_dt transaction.timestamp > (cfg.SETTLEMENT_WINDOW_HOURS : ℚ)
        then none
        else
          let confidence : ℤ := 80 +
            (if amount_diff = 0 then 15
             else if amount_diff_percent ≤ 1/100 then 10
             else if amount_diff_percent ≤ 5/100 then 5
             else 0)
          let day_diff := days_between (.d settlement.settlement_date) (.ts transaction.timestamp)
          let confidence := confidence +
            (if day_diff = 0 then 5
             else if day_diff ≤ 1 then 3
             else if day_diff ≤ 2 then 1
             else 0)
          some (confidence, amount_diff, day_diff)

/-- The best-candidate scan of `_phase2_amount_date_match` for one settlement:
fold the transactions, skipping matched ones, keeping the strictly best
confidence, starting from `(0, None)`. -/
def phase2Fold (cfg : Settings) (σ : RunState) (settlement : Settlement)
    (transactions : List Transaction) : ℤ × Option (Transaction × ℚ × ℤ) :=
  transactions.foldl (fun acc transaction =>
    if σ.matched_transaction_ids.contains transaction.id then acc
    else
      match phase2Score cfg settlement transaction with
      | none => acc
      | some (confidence, amount_diff, day_diff) =>
        if confidence > acc.1 then (confidence, some (transaction, amount_diff, day_diff))
        else acc) (0, none)

/-- The `MatchResult` built in phase 2. -/
def mkPhase2Match (transaction : Transaction) (settlement : Settlement) (confidence : ℤ)
    (amount_diff : ℚ) (day_diff : ℤ) : MatchResult :=
  { transaction_id := some transaction.id
    settlement_id := some settlement.id
    adjustment_id := none
    match_type := "transaction_settlement"
    confidence_score := confidence
    match_reasons := ["amount_within_tolerance", "date_within_window"] ++
      (if amount_diff > 0 then ["amount_variance_detected"] else [])
    amount_difference := amount_diff
    date_difference_days := day_diff
    status := if confidence ≥ 80 then "matched" else "pending_review" }

/-- One iteration of the settlement loop of `_phase2_amount_date_match`:
emit the best candidate when one exists and its confidence reaches
`MIN_CONFIDENCE_FOR_AUTO_MATCH`, counting an amount mismatch when the
difference is positive. -/
def phase2Step (cfg : Settings) (transactions : List Transaction) (σ : RunState)
    (settlement : Settlement) : RunState :=
  if σ.matched_settlement_ids.contains settlement.id then σ
  else
    match phase2Fold cfg σ settlement transactions with
    | (best_confidence, some (transaction, amount_diff, day_diff)) =>
      if best_confidence ≥ cfg.MIN_CONFIDENCE_FOR_AUTO_MATCH then
        { σ with
          matched_transaction_ids := transaction.id :: σ.matched_transaction_ids
          matched_settlement_ids := settlement.id :: σ.matched_settlement_ids
          results := σ.results ++ [mkPhase2Match transaction settlement best_confidence amount_diff day_diff]
          amount_mismatches := σ.amount_mismatches + (if amount_diff > 0 then 1 else 0) }
      else σ
    | (_, none) => σ

/-- `_phase2_amount_date_match`. -/
def phase2_amount_date_match (cfg : Settings) (transactions : List Transaction)
    (settlements : List Settlement) (σ : RunState) : RunState :=
  settlements.foldl (phase2Step cfg transactions) σ

/-- Python substring containment (`needle in haystack`). -/
def containsSubstr (haystack needle : String) : Bool :=
  decide (needle.toList <:+: haystack.toList)

/-- The phase-3 candidate check and score for one (settlement, transaction)
pair, given the settlement's (truthy) `transaction_reference` string `r`:
partial-id and merchant-order-id matching, then the phase-2 amount tolerance
with the phase-3 amount bonuses. Returns
`(confidence, amount_diff, day_diff, reasons)` or `none`. -/
def phase3Score (cfg : Settings) (r : String) (settlement : Settlement)
    (transaction : Transaction) : Option (ℤ × ℚ × ℤ × List String) :=
  if settlement.currency ≠ transaction.currency then none
  else
    let step1 : ℤ × List String :=
      if r.length ≥ 8 ∧ transaction.transaction_id.length ≥ 8 ∧
          (containsSubstr transaction.transaction_id (r.take 8) ∨
           containsSubstr r (transaction.transaction_id.take 8)) then
        (70, ["partial_id_match"])
      else (0, [])
    let step2 : ℤ × List String :=
      if r = transaction.merchant_order_id then
        (max step1.1 75,
         if "partial_id_match" ∉ step1.2 then ["merchant_order_id_match"]
         else step1.2 ++ ["merchant_order_id_match"])
      else step1
    if step2.1 = 0 then none
    else
      match amountDiffPercent transaction.amount settlement.amount with
      | none => none
      | some amount_diff_percent =>
        if amount_diff_percent > cfg.AMOUNT_TOLERANCE_PERCENT / 100 then none
        else
          let amount_diff := |settlement.amount - transaction.amount|
          let confidence := step2.1 +
            (if amount_diff = 0 then 15
             else if amount_diff_percent ≤ 2/100 then 10
             else 0)
          let reasons := step2.2 ++ ["amount_within_tolerance"]
          let day_diff := days_between (.d settlement.settlement_date) (.ts transaction.timestamp)
          some (confidence, amount_diff, day_diff, reasons)

/-- The best-candidate scan of `_phase3_fuzzy_match` for one settlement. -/
def phase3Fold (cfg : Settings) (r : String) (σ : RunState) (settlement : Settlement)
    (transactions : List Transaction) : ℤ × Option (Transaction × ℚ × ℤ × List String) :=
  transactions.foldl (fun acc transaction =>
    if σ.matched_transaction_ids.contains transaction.id then acc
    else
      match phase3Score cfg r settlement transaction with
      | none => acc
      | some (confidence, amount_diff, day_diff, reasons) =>
        if confidence > acc.1 then (confidence, some (transaction, amount_diff, day_diff, reasons))
        else acc) (0, none)

/-- The `MatchResult` built in phase 3. -/
def mkPhase3Match (transaction : Transaction) (settlement : Settlement) (confidence : ℤ)
    (amount_diff : ℚ) (day_diff : ℤ) (reasons : List String) : MatchResult :=
  { transaction_id := some transaction.id
    settlement_id := some settlement.id
    adjustment_id := none
    match_type := "transaction_settlement"
    confidence_score := confidence
    match_reasons := reasons
    amount_difference := amount_diff
    date_difference_days := day_diff
    status := if confidence ≥ 80 then "matched" else "pending_review" }

/-- One iteration of the settlement loop of `_phase3_fuzzy_match`: skip matched
settlements and falsy references; emit the best candidate when one exists. -/
def phase3Step (cfg : Settings) (transactions : List Transaction) (σ : RunState)
    (settlement : Settlement) : RunState :=
  if σ.matched_settlement_ids.contains settlement.id then σ
  else if !strTruthy settlement.transaction_reference then σ
  else
    match phase3Fold cfg (settlement.transaction_reference.getD "") σ settlement transactions with
    | (best_confidence, some (transaction, amount_diff, day_diff, reasons)) =>
      { σ with
        matched_transaction_ids := transaction.id :: σ.matched_transaction_ids
        matched_settlement_ids := settlement.id :: σ.matched_settlement_ids
        results := σ.results ++ [mkPhase3Match transaction settlement best_confidence amount_diff day_diff reasons] }
    | (_, none) => σ

/-- `_phase3_fuzzy_match`. -/
def phase3_fuzzy_match (cfg : Settings) (transactions : List Transaction)
    (settlements : List Settlement) (σ : RunState) : RunState :=
  settlements.foldl (phase3Step cfg transactions) σ

/-- The phase-4 candidate check and score for one (settlement, transaction)
pair: different currencies, FX-converted amount tolerance, the phase-2 date
window, then `60` plus the FX-closeness and exact-reference bonuses. -/
def phase4Score (cfg : Settings) (settlement : Settlement) (transaction : Transaction) :
    Option (ℤ × ℚ × ℤ) :=
  if settlement.currency = transaction.currency then none
  else
    let converted_amount := convert_currency settlement.amount settlement.currency transaction.currency
    let amount_diff := |converted_amount - transaction.amount|
    match amountDiffPercent transaction.amount converted_amount with
    | none => none
    | some amount_diff_percent =>
      if amount_diff_percent > cfg.CURRENCY_FX_TOLERANCE_PERCENT / 100 then none
      else
        let settlement_dt : ℤ := settlement.settlement_date * 86400
        if hours_between settlement_dt transaction.timestamp > (cfg.SETTLEMENT_WINDOW_HOURS : ℚ)
        then none
        else
          let confidence : ℤ := 60 +
            (if amount_diff_percent ≤ 5/100 then 15
             else if amount_diff_percent ≤ 8/100 then 10
             else 0)
          let confidence := confidence +
            (if strTruthy settlement.transaction_reference ∧
                settlement.transaction_reference = some transaction.transaction_id then 20
             else 0)
          let day_diff := days_between (.d settlement.settlement_date) (.ts transaction.timestamp)
          some (confidence, amount_diff, day_diff)

/-- The best-candidate scan of `_phase4_cross_currency_match` for one
settlement. -/
def phase4Fold (cfg : Settings) (σ : RunState) (settlement : Settlement)
    (transactions : List Transaction) : ℤ × Option (Transaction × ℚ × ℤ) :=
  transactions.foldl (fun acc transaction =>
    if σ.matched_transaction_ids.contains transaction.id then acc
    else
      match phase4Score cfg settlement transaction with
      | none => acc
      | some (confidence, amount_diff, day_diff) =>
        if confidence > acc.1 then (confidence, some (transaction, amount_diff, day_diff))
        else acc) (0, none)

/-- The `MatchResult` built in phase 4: always `pending_review`. -/
def mkPhase4Match (transaction : Transaction) (settlement : Settlement) (confidence : ℤ)
    (amount_diff : ℚ) (day_diff : ℤ) : MatchResult :=
  { transaction_id := some transaction.id
    settlement_id := some settlement.id
    adjustment_id := none
    match_type := "transaction_settlement"
    confidence_score := confidence
    match_reasons := ["cross_currency_match", "amount_within_fx_tolerance", "needs_review"]
    amount_difference := amount_diff
    date_difference_days := day_diff
    status := "pending_review" }

/-- One iteration of the settlement loop of `_phase4_cross_currency_match`:
emit the best candidate when its confidence is at least 60. -/
def phase4Step (cfg : Settings) (transactions : List Transaction) (σ : RunState)
    (settlement : Settlement) : RunState :=
  if σ.matched_settlement_ids.contains settlement.id then σ
  else
    match phase4Fold cfg σ settlement transactions with
    | (best_confidence, some (transaction, amount_diff, day_diff)) =>
      if best_confidence ≥ 60 then
        { σ with
          matched_transaction_ids := transaction.id :: σ.matched_transaction_ids
          matched_settlement_ids := settlement.id :: σ.matched_settlement_ids
          results := σ.results ++ [mkPhase4Match transaction settlement best_confidence amount_diff day_diff] }
      else σ
    | (_, none) => σ

/-- `_phase4_cross_currency_match`. -/
def phase4_cross_currency_match (cfg : Settings) (transactions : List Transaction)
    (settlements : List Settlement) (σ : RunState) : RunState :=
  settlements.foldl (phase4Step cfg transactions) σ

/-- The phase-5 candidate check and score for one (adjustment, transaction)
pair, given the type-dependent window in days: reference matching, the
currency and amount penalties, then the date-window rejection. -/
def phase5Score (window_days : ℤ) (adjustment : Adjustment) (transaction : Transaction) :
    Option (ℤ × ℚ × ℤ × List String) :=
  let step1 : ℤ × List String :=
    if strTruthy adjustment.transaction_reference then
      if adjustment.transaction_reference = some transaction.transaction_id then
        (100, ["exact_transaction_id_match"])
      else if adjustment.transaction_reference = some transaction.merchant_order_id then
        (90, ["merchant_order_id_match"])
      else (0, [])
    else (0, [])
  if step1.1 = 0 then none
  else
    let step2 : ℤ × List String :=
      if adjustment.currency ≠ transaction.currency then
        (step1.1 - 20, step1.2 ++ ["currency_mismatch"])
      else step1
    let step3 : ℤ × List String :=
      if adjustment.amount > transaction.amount then
        (step2.1 - 10, step2.2 ++ ["adjustment_exceeds_transaction"])
      else step2
    let day_diff := days_between (.d adjustment.date) (.ts transaction.timestamp)
    if day_diff > window_days then none
    else
      some (step3.1, |adjustment.amount - transaction.amount|, day_diff,
        step3.2 ++ ["date_within_window"])

/-- The best-candidate scan of `_phase5_adjustment_match` for one adjustment:
every transaction is scanned (no exclusion-set check). -/
def phase5Fold (window_days : ℤ) (adjustment : Adjustment) (transactions : List Transaction) :
    ℤ × Option (Transaction × ℚ × ℤ × List String) :=
  transactions.foldl (fun acc transaction =>
    match phase5Score window_days adjustment transaction with
    | none => acc
    | some (confidence, amount_diff, day_diff, reasons) =>
      if confidence > acc.1 then (confidence, some (transaction, amount_diff, day_diff, reasons))
      else acc) (0, none)

/-- The `MatchResult` built in phase 5 (`transaction_adjustment` type). -/
def mkPhase5Match (transaction : Transaction) (adjustment : Adjustment) (confidence : ℤ)
    (amount_diff : ℚ) (day_diff : ℤ) (reasons : List String) : MatchResult :=
  { transaction_id := some transaction.id
    settlement_id := none
    adjustment_id := some adjustment.id
    match_type := "transaction_adjustment"
    confidence_score := confidence
    match_reasons := reasons
    amount_difference := amount_diff
    date_difference_days := day_diff
    status := if confidence ≥ 80 then "matched" else "pending_review" }

/-- One iteration of the adjustment loop of `_phase5_adjustment_match`: only
the adjustment id joins an exclusion set (the matched transaction id does
not). -/
def phase5Step (cfg : Settings) (transactions : List Transaction) (σ : RunState)
    (adjustment : Adjustment) : RunState :=
  if σ.matched_adjustment_ids.contains adjustment.id then σ
  else
    let window_days :=
      if adjustment.type = "chargeback" then cfg.CHARGEBACK_WINDOW_DAYS
      else cfg.REFUND_WINDOW_DAYS
    match phase5Fold window_days adjustment transactions with
    | (best_confidence, some (transaction, amount_diff, day_diff, reasons)) =>
      { σ with
        matched_adjustment_ids := adjustment.id :: σ.matched_adjustment_ids
        results := σ.results ++ [mkPhase5Match transaction adjustment best_confidence amount_diff day_diff reasons] }
    | (_, none) => σ

/-- `_phase5_adjustment_match`. -/
def phase5_adjustment_match (cfg : Settings) (transactions : List Transaction)
    (adjustments : List Adjustment) (σ : RunState) : RunState :=
  adjustments.foldl (phase5Step cfg transactions) σ

/-- The engine state after phase 1 of a run on the loaded record lists. -/
def stateAfterPhase1 (transactions : List Transaction) (settlements : List Settlement) :
    RunState :=
  phase1_exact_id_match transactions settlements initialRunState

/-- The engine state after phase 2. -/
def stateAfterPhase2 (cfg : Settings) (transactions : List Transaction)
    (settlements : List Settlement) : RunState :=
  phase2_amount_date_match cfg transactions settlements (stateAfterPhase1 transactions settlements)

/-- The engine state after phase 3. -/
def stateAfterPhase3 (cfg : Settings) (transactions : List Transaction)
    (settlements : List Settlement) : RunState :=
  phase3_fuzzy_match cfg transactions settlements (stateAfterPhase2 cfg transactions settlements)

/-- The engine state after phase 4. -/
def stateAfterPhase4 (cfg : Settings) (transactions : List Transaction)
    (settlements : List Settlement) : RunState :=
  phase4_cross_currency_match cfg transactions settlements (stateAfterPhase3 cfg transactions settlements)

/-- `run_reconciliation` on the loaded record lists: the five phases in order
on a fresh engine state. The returned state carries the full `matches` list
(in emission order) and the `amount_mismatches` counter. -/
def run_reconciliation (cfg : Settings) (transactions : List Transaction)
    (settlements : List Settlement) (adjustments : List Adjustment) : RunState :=
  phase5_adjustment_match cfg transactions adjustments
    (stateAfterPhase4 cfg transactions settlements)

/-! ### Commit-level store semantics of a run

`run_reconciliation` touches the `match_results` table in two separate
database transactions: `_clear_previous_matches` issues `delete(MatchResult)`
and immediately `commit`s (matching.py lines 86-90), and only later does the
save loop `db.add` every match and `commit` again (lines 65-68). A failure of
the second commit therefore leaves the table as the first commit left it. -/

/-- The committed contents of the `match_results` table. -/
structure MatchStore where
  committed : List MatchResult
deriving DecidableEq, Repr

/-- `_clear_previous_matches`: delete all rows and commit at once. -/
def clear_previous_matches (_st : MatchStore) : MatchStore :=
  { committed := [] }

/-- A whole run against the store: the clear commits first, then the computed
matches are committed; when the final persist commit fails (store
unavailable), the table keeps the state the clear left behind. -/
def run_reconciliation_committed (cfg : Settings) (transactions : List Transaction)
    (settlements : List Settlement) (adjustments : List Adjustment)
    (st : MatchStore) (persist_succeeds : Bool) : MatchStore :=
  let cleared := clear_previous_matches st
  if persist_succeeds then
    { committed := (run_reconciliation cfg transactions settlements adjustments).results }
  else cleared

/-! ### Reporting (`app/services/reporting.py`) -/

/-- `_calculate_priority`: adjustments are always high; otherwise the
USD-amount/age thresholds decide. -/
def calculate_priority (amount : ℚ) (currency : String) (age_days : ℤ)
    (is_adjustment : Bool) : String :=
  let usd_amount := convert_to_usd amount currency
  if is_adjustment then "high"
  else if usd_amount > 1000 ∨ age_days > 7 then "high"
  else if usd_amount > 100 ∨ age_days > 3 then "medium"
  else "low"

/-- One discrepancy as classified by `get_discrepancies`, before its record
payload is serialized: the underlying row of each of the four categories. -/
inductive DiscrepancySource where
  | unmatchedTransaction (t : Transaction)
  | unmatchedSettlement (s : Settlement)
  | unmatchedAdjustment (a : Adjustment)
  | amountMismatch (m : MatchResult)
deriving DecidableEq, Repr

/-- The `age_days` value `get_discrepancies` computes for a discrepancy:
`days_between(record_date, now)` for the three unmatched categories, and the
stored `date_difference_days` for an amount mismatch. `now` is the current
instant in seconds. -/
def discrepancyAgeDays (now : ℤ) : DiscrepancySource → ℤ
  | .unmatchedTransaction t => days_between (.ts t.timestamp) (.ts now)
  | .unmatchedSettlement s => days_between (.d s.settlement_date) (.d (Int.fdiv now 86400))
  | .unmatchedAdjustment a => days_between (.d a.date) (.d (Int.fdiv now 86400))
  | .amountMismatch m => m.date_difference_days

/-- The `priority` value `get_discrepancies` attaches to a discrepancy:
`_calculate_priority` for the three unmatched categories (with
`is_adjustment=True` for adjustments), and the literal `"medium"` for an
amount mismatch (reporting.py line 131). -/
def discrepancyPriority (now : ℤ) : DiscrepancySource → String
  | .unmatchedTransaction t =>
    calculate_priority t.amount t.currency (discrepancyAgeDays now (.unmatchedTransaction t)) false
  | .unmatchedSettlement s =>
    calculate_priority s.amount s.currency (discrepancyAgeDays now (.unmatchedSettlement s)) false
  | .unmatchedAdjustment a =>
    calculate_priority a.amount a.currency (discrepancyAgeDays now (.unmatchedAdjustment a)) true
  | .amountMismatch _ => "medium"

/-- Modelled from the spec: the priority rule as the specification words it
for every discrepancy category ("high if `to_usd(amount) > $1000` or
`age_days > 7`; medium if `> $100` or `> 3 days`; else low"). -/
def specPriorityRule (usd_amount : ℚ) (age_days : ℤ) : String :=
  if usd_amount > 1000 ∨ age_days > 7 then "high"
  else if usd_amount > 100 ∨ age_days > 3 then "medium"
  else "low"

/-- An entry of a suggested-match list: its confidence, reasons and the id of
the suggested counterpart record. -/
structure Suggestion where
  confidence : ℤ
  reasons : List String
  record_id : String
deriving DecidableEq, Repr

/-- `_score_match` of the reporting service: the relaxed scorer crediting
currency, amount, date proximity and reference, clamped to 100. -/
def score_match (cfg : Settings) (transaction : Transaction) (settlement : Settlement) :
    ℤ × List String :=
  let step1 : ℤ × List String :=
    if settlement.currency = transaction.currency then (20, ["currency_match"]) else (0, [])
  let step2 : ℤ × List String :=
    if transaction.amount > 0 then
      let diff_percent := |settlement.amount - transaction.amount| / transaction.amount
      if diff_percent = 0 then (step1.1 + 40, step1.2 ++ ["exact_amount"])
      else if diff_percent ≤ cfg.AMOUNT_TOLERANCE_PERCENT / 100 then
        (step1.1 + 25, step1.2 ++ ["amount_within_tolerance"])
      else step1
    else step1
  let day_diff := days_between (.d settlement.settlement_date) (.ts transaction.timestamp)
  let step3 : ℤ × List String :=
    if day_diff ≤ 3 then (step2.1 + 20, step2.2 ++ ["date_within_72h"])
    else if day_diff ≤ 7 then (step2.1 + 10, step2.2 ++ ["date_within_7d"])
    else step2
  let step4 : ℤ × List String :=
    if strTruthy settlement.transaction_reference ∧
        settlement.transaction_reference = some transaction.transaction_id then
      (step3.1 + 20, step3.2 ++ ["id_match"])
    else step3
  (min step4.1 100, step4.2)

/-- The suggestion entry `_get_suggested_settlement_matches` builds for one
candidate settlement, when its score is above 30. -/
def suggestionOfSettlement (cfg : Settings) (transaction : Transaction)
    (settlement : Settlement) : Option Suggestion :=
  let scored := score_match cfg transaction settlement
  if scored.1 > 30 then some ⟨scored.1, scored.2, settlement.id⟩ else none

/-- The suggestion entry `_get_suggested_transaction_matches` builds for one
candidate transaction, when its score is above 30. -/
def suggestionOfTransaction (cfg : Settings) (settlement : Settlement)
    (transaction : Transaction) : Option Suggestion :=
  let scored := score_match cfg transaction settlement
  if scored.1 > 30 then some ⟨scored.1, scored.2, transaction.id⟩ else none

/-- `_get_suggested_settlement_matches` over the fetched unmatched-settlement
candidates: score each, keep confidence above 30, sort by descending
confidence (stable), truncate to `limit` (the call sites use the default 3). -/
def get_suggested_settlement_matches (cfg : Settings) (transaction : Transaction)
    (settlements : List Settlement) (limit : ℕ) : List Suggestion :=
  ((settlements.filterMap (suggestionOfSettlement cfg transaction)).mergeSort
    (fun a b => decide (b.confidence ≤ a.confidence))).take limit

/-- `_get_suggested_transaction_matches` over the fetched unmatched-transaction
candidates. -/
def get_suggested_transaction_matches (cfg : Settings) (settlement : Settlement)
    (transactions : List Transaction) (limit : ℕ) : List Suggestion :=
  ((transactions.filterMap (suggestionOfTransaction cfg settlement)).mergeSort
    (fun a b => decide (b.confidence ≤ a.confidence))).take limit

/-- Round-half-even (Python's `round`) to an integer. -/
def roundHalfEven (x : ℚ) : ℤ :=
  if x - ⌊x⌋ < 1/2 then ⌊x⌋
  else if x - ⌊x⌋ > 1/2 then ⌊x⌋ + 1
  else if ⌊x⌋ % 2 = 0 then ⌊x⌋ else ⌊x⌋ + 1

/-- `round(x, 4)`: round half-even at the fourth decimal place. -/
def roundTo4 (x : ℚ) : ℚ :=
  (roundHalfEven (x * 10000) : ℚ) / 10000

/-- `_calculate_chargeback_rate`: the two `count(...)` scalars may come back
`NULL` (`None`); `if not total_txns` guards both `None` and `0`, and
`total_chargebacks or 0` defaults the numerator. -/
def calculate_chargeback_rate (total_txns total_chargebacks : Option ℕ) : ℚ :=
  if total_txns.getD 0 = 0 then 0
  else roundTo4 ((total_chargebacks.getD 0 : ℚ) / (total_txns.getD 0 : ℚ))

/-! ### Claim predicates and occurrence counters -/

/-- How many emitted `MatchResult`s carry transaction id `tid` together with a
set `settlement_id`. -/
def settlementMatchCount (tid : String) (results : List MatchResult) : ℕ :=
  (results.filter (fun m => m.transaction_id == some tid && m.settlement_id.isSome)).length

/-- How many emitted `MatchResult`s carry transaction id `tid` together with a
set `adjustment_id`. -/
def adjustmentSideCount (tid : String) (results : List MatchResult) : ℕ :=
  (results.filter (fun m => m.transaction_id == some tid && m.adjustment_id.isSome)).length

/-- How many emitted `MatchResult`s carry adjustment id `aid`. -/
def adjustmentMatchCount (aid : String) (results : List MatchResult) : ℕ :=
  (results.filter (fun m => m.adjustment_id == some aid)).length

/-- The status-coupling property exactly as the specification claims it for a
run: every result has `status = matched` iff its confidence reaches
`MIN_CONFIDENCE_FOR_AUTO_MATCH`, except the phase-4 segment of the emission
list, which is always `pending_review`. -/
def statusCouplingClaim (cfg : Settings) (transactions : List Transaction)
    (settlements : List Settlement) (adjustments : List Adjustment) : Prop :=
  (∀ m ∈ (stateAfterPhase4 cfg transactions settlements).results.drop
      (stateAfterPhase3 cfg transactions settlements).results.length,
    m.status = "pending_review") ∧
  (∀ m ∈ (stateAfterPhase3 cfg transactions settlements).results,
    m.status = "matched" ↔ cfg.MIN_CONFIDENCE_FOR_AUTO_MATCH ≤ m.confidence_score) ∧
  (∀ m ∈ (run_reconciliation cfg transactions settlements adjustments).results.drop
      (stateAfterPhase4 cfg transactions settlements).results.length,
    m.status = "matched" ↔ cfg.MIN_CONFIDENCE_FOR_AUTO_MATCH ≤ m.confidence_score)

/-- The phase-dominance property exactly as the specification claims it for a
pair `(t, s)`: no result emitted after phase 1 involves `t` or `s`. -/
def phaseDominanceClaim (cfg : Settings) (transactions : List Transaction)
    (settlements : List Settlement) (adjustments : List Adjustment)
    (t : Transaction) (s : Settlement) : Prop :=
  ∀ m ∈ (run_reconciliation cfg transactions settlements adjustments).results.drop
      (stateAfterPhase1 transactions settlements).results.length,
    m.transaction_id ≠ some t.id ∧ m.settlement_id ≠ some s.id

/-! ### Concrete scenario inputs -/

/-- C1 scenario: one captured transaction referenced by two adjustments. -/
def c1Transaction : Transaction :=
  { id := "T1", transaction_id := "txn_001", merchant_order_id := "", amount := 100,
    currency := "MXN", timestamp := 19737 * 86400, status := "captured" }

/-- First refund referencing `txn_001`. -/
def c1Adjustment1 : Adjustment :=
  { id := "A1", adjustment_id := "adj_001", transaction_reference := some "txn_001",
    amount := 50, currency := "MXN", type := "refund", date := 19737 }

/-- Second refund referencing the same `txn_001`. -/
def c1Adjustment2 : Adjustment :=
  { id := "A2", adjustment_id := "adj_002", transaction_reference := some "txn_001",
    amount := 30, currency := "MXN", type := "refund", date := 19737 }

/-- A pre-existing stored `MatchResult` for the C2 scenario. -/
def c2PreMatch : MatchResult :=
  { transaction_id := some "T0", settlement_id := some "S0", adjustment_id := none,
    match_type := "transaction_settlement", confidence_score := 100,
    match_reasons := ["exact_transaction_id_match", "currency_match"],
    amount_difference := 0, date_difference_days := 0, status := "matched" }

/-- C3 scenario configuration: a valid non-default auto-match threshold. -/
def c3Settings : Settings :=
  { defaultSettings with MIN_CONFIDENCE_FOR_AUTO_MATCH := 70 }

/-- C3 scenario transaction (id long enough for partial-id matching). -/
def c3Transaction : Transaction :=
  { id := "T1", transaction_id := "txn_00000001", merchant_order_id := "", amount := 1000,
    currency := "MXN", timestamp := 19737 * 86400 + 36000, status := "captured" }

/-- C3 scenario settlement: shares an 8-character id prefix with the
transaction, 3% amount variance, 10 days late (outside the phase-2 window,
inside no window that phase 3 checks). -/
def c3Settlement : Settlement :=
  { id := "S1", settlement_reference := "stl_C3", amount := 970, currency := "MXN",
    settlement_date := 19747, transaction_reference := some "txn_0000ZZZZ" }

/-- C4 scenario: the transaction the exact references point at. -/
def c4Transaction1 : Transaction :=
  { id := "T1", transaction_id := "txn_00000001", merchant_order_id := "", amount := 100,
    currency := "MXN", timestamp := 19737 * 86400, status := "captured" }

/-- C4 scenario: a second transaction with matching amount and date. -/
def c4Transaction2 : Transaction :=
  { id := "T2", transaction_id := "txn_002", merchant_order_id := "", amount := 50,
    currency := "MXN", timestamp := 19737 * 86400, status := "captured" }

/-- C4 scenario: the settlement that claims the transaction in phase 1. -/
def c4Settlement1 : Settlement :=
  { id := "S1", settlement_reference := "stl_1", amount := 100, currency := "MXN",
    settlement_date := 19737, transaction_reference := some "txn_00000001" }

/-- C4 scenario: a second settlement bearing the same exact reference. -/
def c4Settlement2 : Settlement :=
  { id := "S2", settlement_reference := "stl_2", amount := 50, currency := "MXN",
    settlement_date := 19737, transaction_reference := some "txn_00000001" }

/-- C4 scenario: a refund referencing the phase-1-matched transaction. -/
def c4Adjustment : Adjustment :=
  { id := "A1", adjustment_id := "adj_001", transaction_reference := some "txn_00000001",
    amount := 50, currency := "MXN", type := "refund", date := 19737 }

/-- Scenario S2 transaction: `txn_002`, 1000.00, 2024-01-15T10:00Z
(epoch day 19737), captured. -/
def s2Transaction : Transaction :=
  { id := "T1", transaction_id := "txn_002", merchant_order_id := "", amount := 1000,
    currency := "MXN", timestamp := 19737 * 86400 + 36000, status := "captured" }

/-- Scenario S2 settlement: `stl_B`, no reference, 970.00, 2024-01-17
(epoch day 19739). -/
def s2Settlement : Settlement :=
  { id := "S1", settlement_reference := "stl_B", amount := 970, currency := "MXN",
    settlement_date := 19739, transaction_reference := none }

/-- C6 scenario: an amount-mismatch row that is both large (5000.00) and old
(10 days between transaction and settlement). -/
def c6Mismatch : MatchResult :=
  { transaction_id := some "T1", settlement_id := some "S1", adjustment_id := none,
    match_type := "transaction_settlement", confidence_score := 85,
    match_reasons := ["amount_within_tolerance", "date_within_window", "amount_variance_detected"],
    amount_difference := 5000, date_difference_days := 10, status := "matched" }

/-! ### Run invariants used by the proofs -/

/-- The invariant behind settlement-side transaction uniqueness: at most one
settlement match mentions `tid`, and as soon as one does, `tid` is in the
exclusion set. -/
def SettlementUniqInv (tid : String) (σ : RunState) : Prop :=
  settlementMatchCount tid σ.results ≤ 1 ∧
  (1 ≤ settlementMatchCount tid σ.results → tid ∈ σ.matched_transaction_ids)

/-- The invariant behind adjustment-id uniqueness: at most one match mentions
adjustment id `aid`, and as soon as one does, `aid` is in the exclusion set. -/
def AdjustmentUniqInv (aid : String) (σ : RunState) : Prop :=
  adjustmentMatchCount aid σ.results ≤ 1 ∧
  (1 ≤ adjustmentMatchCount aid σ.results → aid ∈ σ.matched_adjustment_ids)

/-- Every emitted result couples its status to the hard-coded threshold 80. -/
def ResultsCoupled (σ : RunState) : Prop :=
  ∀ m ∈ σ.results, (m.status = "matched" ↔ 80 ≤ m.confidence_score)

/-- The results extend a fixed prefix `base` by `pending_review` rows only. -/
def ResultsExtendPending (base : List MatchResult) (σ : RunState) : Prop :=
  ∃ r, σ.results = base ++ r ∧ ∀ m ∈ r, m.status = "pending_review"

/-- The results extend a fixed prefix `base` by status-coupled rows only. -/
def ResultsExtendCoupled (base : List MatchResult) (σ : RunState) : Prop :=
  ∃ r, σ.results = base ++ r ∧
    ∀ m ∈ r, (m.status = "matched" ↔ 80 ≤ m.confidence_score)

/-- Once `tId` is in the transaction exclusion set, the results only ever
extend the fixed prefix `base` by rows that do not mention `tId`. -/
def NoNewTid (tId : String) (base : List MatchResult) (σ : RunState) : Prop :=
  tId ∈ σ.matched_transaction_ids ∧
  ∃ r, σ.results = base ++ r ∧ ∀ m ∈ r, m.transaction_id ≠ some tId

/-! ### Generic fold and list helpers -/

/-- A predicate preserved by every step of a fold is preserved by the fold. -/
theorem foldlPreserve {α β : Type _} {f : β → α → β} {P : β → Prop}
    (hstep : ∀ s a, P s → P (f s a)) :
    ∀ (l : List α) (s : β), P s → P (l.foldl f s) := by
  intro l
  induction l with
  | nil => intro s hs; exact hs
  | cons a t ih => intro s hs; exact ih (f s a) (hstep s a hs)

/-- A property of every element of a list extends over a one-element append. -/
theorem forallMemAppendSingle {α : Type _} {C : α → Prop} {l : List α} {a : α}
    (h : ∀ x ∈ l, C x) (ha : C a) : ∀ x ∈ l ++ [a], C x := by
  intro x hx
  rcases List.mem_append.mp hx with hx | hx
  · exact h x hx
  · rw [List.mem_singleton.mp hx]; exact ha

/-- A nonempty string is not `isEmpty`. -/
theorem isEmpty_false_of_ne_empty {s : String} (h : s ≠ "") : s.isEmpty = false := by
  rcases hb : s.isEmpty with _ | _
  · rfl
  · exact absurd ((String.isEmpty_iff s).mp hb) h

/-! ### Shape of one step of each phase -/

/-- A phase-1 step either leaves the state unchanged or emits exactly one
match for an unmatched transaction satisfying the exact reference and
currency conditions. -/
theorem phase1Step_shape (transactions : List Transaction) (σ : RunState)
    (settlement : Settlement) :
    phase1Step transactions σ settlement = σ ∨
    ∃ transaction, transaction ∈ transactions ∧
      σ.matched_transaction_ids.contains transaction.id = false ∧
      σ.matched_settlement_ids.contains settlement.id = false ∧
      settlement.transaction_reference = some transaction.transaction_id ∧
      settlement.currency = transaction.currency ∧
      phase1Step transactions σ settlement =
        { σ with
          matched_transaction_ids := transaction.id :: σ.matched_transaction_ids
          matched_settlement_ids := settlement.id :: σ.matched_settlement_ids
          results := σ.results ++ [mkPhase1Match transaction settlement] } := by
  by_cases h1 : σ.matched_settlement_ids.contains settlement.id
  · left
    simp only [phase1Step]
    rw [if_pos h1]
  · by_cases h2 : strTruthy settlement.transaction_reference
    · have h2' : ¬ ((!strTruthy settlement.transaction_reference) = true) := by simp [h2]
      rcases hfind : transactions.find? (fun transaction =>
          !σ.matched_transaction_ids.contains transaction.id &&
          (settlement.transaction_reference == some transaction.transaction_id) &&
          (settlement.currency == transaction.currency)) with _ | t
      · left
        simp only [phase1Step]
        rw [if_neg h1, if_neg h2', hfind]
      · right
        have hp := List.find?_some hfind
        simp only [Bool.and_eq_true, Bool.not_eq_true', beq_iff_eq] at hp
        refine ⟨t, List.mem_of_find?_eq_some hfind, hp.1.1, by simpa using h1,
          hp.1.2, hp.2, ?_⟩
        simp only [phase1Step]
        rw [if_neg h1, if_neg h2', hfind]
    · left
      have h2' : (!strTruthy settlement.transaction_reference) = true := by
        revert h2; cases strTruthy settlement.transaction_reference <;> simp
      simp only [phase1Step]
      rw [if_neg h1, if_pos h2']

/-- The phase-2 best-candidate fold only ever selects a transaction that is
not in the exclusion set. -/
theorem phase2Fold_contains (cfg : Settings) (σ : RunState) (settlement : Settlement)
    (transactions : List Transaction) (transaction : Transaction) (amount_diff : ℚ)
    (day_diff : ℤ)
    (h : (phase2Fold cfg σ settlement transactions).2 = some (transaction, amount_diff, day_diff)) :
    σ.matched_transaction_ids.contains transaction.id = false := by
  have key : ∀ (l : List Transaction) (acc : ℤ × Option (Transaction × ℚ × ℤ)),
      (∀ t ad dd, acc.2 = some (t, ad, dd) → σ.matched_transaction_ids.contains t.id = false) →
      ∀ t ad dd, (l.foldl (fun acc transaction =>
          if σ.matched_transaction_ids.contains transaction.id then acc
          else
            match phase2Score cfg settlement transaction with
            | none => acc
            | some (confidence, amount_diff, day_diff) =>
              if confidence > acc.1 then (confidence, some (transaction, amount_diff, day_diff))
              else acc) acc).2 = some (t, ad, dd) →
        σ.matched_transaction_ids.contains t.id = false := by
    intro l
    induction l with
    | nil => exact fun acc hacc => hacc
    | cons a l ih =>
      intro acc hacc t ad dd h
      refine ih _ ?_ t ad dd h
      intro t' ad' dd' h'
      dsimp only at h'
      by_cases hc : σ.matched_transaction_ids.contains a.id = true
      · rw [if_pos hc] at h'
        exact hacc _ _ _ h'
      · rw [if_neg hc] at h'
        rcases hsc : phase2Score cfg settlement a with _ | ⟨c, ad2, dd2⟩ <;>
          simp only [hsc] at h'
        · exact hacc _ _ _ h'
        · by_cases hgt : c > acc.1
          · rw [if_pos hgt] at h'
            simp only [Option.some.injEq, Prod.mk.injEq] at h'
            obtain ⟨ht', -, -⟩ := h'
            rw [← ht']
            simpa using hc
          · rw [if_neg hgt] at h'
            exact hacc _ _ _ h'
  exact key transactions (0, none) (by intro t ad dd h; simp at h) transaction amount_diff day_diff h

/-- A phase-2 step either leaves the state unchanged or emits exactly one
match for an unmatched transaction. -/
theorem phase2Step_shape (cfg : Settings) (transactions : List Transaction) (σ : RunState)
    (settlement : Settlement) :
    phase2Step cfg transactions σ settlement = σ ∨
    ∃ transaction confidence amount_diff day_diff,
      σ.matched_transaction_ids.contains transaction.id = false ∧
      phase2Step cfg transactions σ settlement =
        { σ with
          matched_transaction_ids := transaction.id :: σ.matched_transaction_ids
          matched_settlement_ids := settlement.id :: σ.matched_settlement_ids
          results := σ.results ++ [mkPhase2Match transaction settlement confidence amount_diff day_diff]
          amount_mismatches := σ.amount_mismatches + (if amount_diff > 0 then 1 else 0) } := by
  by_cases h1 : σ.matched_settlement_ids.contains settlement.id
  · left
    simp only [phase2Step]
    rw [if_pos h1]
  · rcases hfold : phase2Fold cfg σ settlement transactions with ⟨bc, _ | ⟨t, ad, dd⟩⟩
    · left
      simp only [phase2Step]
      rw [if_neg h1, hfold]
    · by_cases hmin : bc ≥ cfg.MIN_CONFIDENCE_FOR_AUTO_MATCH
      · right
        refine ⟨t, bc, ad, dd, phase2Fold_contains cfg σ settlement transactions t ad dd
          (by rw [hfold]), ?_⟩
        simp only [phase2Step]
        rw [if_neg h1, hfold]
        exact if_pos hmin
      · left
        simp only [phase2Step]
        rw [if_neg h1, hfold]
        exact if_neg hmin

/-- The phase-3 best-candidate fold only ever selects a transaction that is
not in the exclusion set. -/
theorem phase3Fold_contains (cfg : Settings) (r : String) (σ : RunState)
    (settlement : Settlement) (transactions : List Transaction) (transaction : Transaction)
    (amount_diff : ℚ) (day_diff : ℤ) (reasons : List String)
    (h : (phase3Fold cfg r σ settlement transactions).2 =
      some (transaction, amount_diff, day_diff, reasons)) :
    σ.matched_transaction_ids.contains transaction.id = false := by
  have key : ∀ (l : List Transaction) (acc : ℤ × Option (Transaction × ℚ × ℤ × List String)),
      (∀ t ad dd rs, acc.2 = some (t, ad, dd, rs) →
        σ.matched_transaction_ids.contains t.id = false) →
      ∀ t ad dd rs, (l.foldl (fun acc transaction =>
          if σ.matched_transaction_ids.contains transaction.id then acc
          else
            match phase3Score cfg r settlement transaction with
            | none => acc
            | some (confidence, amount_diff, day_diff, reasons) =>
              if confidence > acc.1 then
                (confidence, some (transaction, amount_diff, day_diff, reasons))
              else acc) acc).2 = some (t, ad, dd, rs) →
        σ.matched_transaction_ids.contains t.id = false := by
    intro l
    induction l with
    | nil => exact fun acc hacc => hacc
    | cons a l ih =>
      intro acc hacc t ad dd rs h
      refine ih _ ?_ t ad dd rs h
      intro t' ad' dd' rs' h'
      dsimp only at h'
      by_cases hc : σ.matched_transaction_ids.contains a.id = true
      · rw [if_pos hc] at h'
        exact hacc _ _ _ _ h'
      · rw [if_neg hc] at h'
        rcases hsc : phase3Score cfg r settlement a with _ | ⟨c, ad2, dd2, rs2⟩ <;>
          simp only [hsc] at h'
        · exact hacc _ _ _ _ h'
        · by_cases hgt : c > acc.1
          · rw [if_pos hgt] at h'
            simp only [Option.some.injEq, Prod.mk.injEq] at h'
            obtain ⟨ht', -, -, -⟩ := h'
            rw [← ht']
            simpa using hc
          · rw [if_neg hgt] at h'
            exact hacc _ _ _ _ h'
  exact key transactions (0, none) (by intro t ad dd rs h; simp at h)
    transaction amount_diff day_diff reasons h

/-- A phase-3 step either leaves the state unchanged or emits exactly one
match for an unmatched transaction. -/
theorem phase3Step_shape (cfg : Settings) (transactions : List Transaction) (σ : RunState)
    (settlement : Settlement) :
    phase3Step cfg transactions σ settlement = σ ∨
    ∃ transaction confidence amount_diff day_diff reasons,
      σ.matched_transaction_ids.contains transaction.id = false ∧
      phase3Step cfg transactions σ settlement =
        { σ with
          matched_transaction_ids := transaction.id :: σ.matched_transaction_ids
          matched_settlement_ids := settlement.id :: σ.matched_settlement_ids
          results := σ.results ++
            [mkPhase3Match transaction settlement confidence amount_diff day_diff reasons] } := by
  by_cases h1 : σ.matched_settlement_ids.contains settlement.id
  · left
    simp only [phase3Step]
    rw [if_pos h1]
  · by_cases h2 : strTruthy settlement.transaction_reference
    · have h2' : ¬ ((!strTruthy settlement.transaction_reference) = true) := by simp [h2]
      rcases hfold : phase3Fold cfg (settlement.transaction_reference.getD "") σ settlement
          transactions with ⟨bc, _ | ⟨t, ad, dd, rs⟩⟩
      · left
        simp only [phase3Step]
        rw [if_neg h1, if_neg h2', hfold]
      · right
        refine ⟨t, bc, ad, dd, rs, phase3Fold_contains cfg _ σ settlement transactions
          t ad dd rs (by rw [hfold]), ?_⟩
        simp only [phase3Step]
        rw [if_neg h1, if_neg h2', hfold]
    · left
      have h2' : (!strTruthy settlement.transaction_reference) = true := by
        revert h2; cases strTruthy settlement.transaction_reference <;> simp
      simp only [phase3Step]
      rw [if_neg h1, if_pos h2']

/-- The phase-4 best-candidate fold only ever selects a transaction that is
not in the exclusion set. -/
theorem phase4Fold_contains (cfg : Settings) (σ : RunState) (settlement : Settlement)
    (transactions : List Transaction) (transaction : Transaction) (amount_diff : ℚ)
    (day_diff : ℤ)
    (h : (phase4Fold cfg σ settlement transactions).2 = some (transaction, amount_diff, day_diff)) :
    σ.matched_transaction_ids.contains transaction.id = false := by
  have key : ∀ (l : List Transaction) (acc : ℤ × Option (Transaction × ℚ × ℤ)),
      (∀ t ad dd, acc.2 = some (t, ad, dd) → σ.matched_transaction_ids.contains t.id = false) →
      ∀ t ad dd, (l.foldl (fun acc transaction =>
          if σ.matched_transaction_ids.contains transaction.id then acc
          else
            match phase4Score cfg settlement transaction with
            | none => acc
            | some (confidence, amount_diff, day_diff) =>
              if confidence > acc.1 then (confidence, some (transaction, amount_diff, day_diff))
              else acc) acc).2 = some (t, ad, dd) →
        σ.matched_transaction_ids.contains t.id = false := by
    intro l
    induction l with
    | nil => exact fun acc hacc => hacc
    | cons a l ih =>
      intro acc hacc t ad dd h
      refine ih _ ?_ t ad dd h
      intro t' ad' dd' h'
      dsimp only at h'
      by_cases hc : σ.matched_transaction_ids.contains a.id = true
      · rw [if_pos hc] at h'
        exact hacc _ _ _ h'
      · rw [if_neg hc] at h'
        rcases hsc : phase4Score cfg settlement a with _ | ⟨c, ad2, dd2⟩ <;>
          simp only [hsc] at h'
        · exact hacc _ _ _ h'
        · by_cases hgt : c > acc.1
          · rw [if_pos hgt] at h'
            simp only [Option.some.injEq, Prod.mk.injEq] at h'
            obtain ⟨ht', -, -⟩ := h'
            rw [← ht']
            simpa using hc
          · rw [if_neg hgt] at h'
            exact hacc _ _ _ h'
  exact key transactions (0, none) (by intro t ad dd h; simp at h) transaction amount_diff day_diff h

/-- A phase-4 step either leaves the state unchanged or emits exactly one
match for an unmatched transaction. -/
theorem phase4Step_shape (cfg : Settings) (transactions : List Transaction) (σ : RunState)
    (settlement : Settlement) :
    phase4Step cfg transactions σ settlement = σ ∨
    ∃ transaction confidence amount_diff day_diff,
      σ.matched_transaction_ids.contains transaction.id = false ∧
      phase4Step cfg transactions σ settlement =
        { σ with
          matched_transaction_ids := transaction.id :: σ.matched_transaction_ids
          matched_settlement_ids := settlement.id :: σ.matched_settlement_ids
          results := σ.results ++
            [mkPhase4Match transaction settlement confidence amount_diff day_diff] } := by
  by_cases h1 : σ.matched_settlement_ids.contains settlement.id
  · left
    simp only [phase4Step]
    rw [if_pos h1]
  · rcases hfold : phase4Fold cfg σ settlement transactions with ⟨bc, _ | ⟨t, ad, dd⟩⟩
    · left
      simp only [phase4Step]
      rw [if_neg h1, hfold]
    · by_cases hmin : bc ≥ 60
      · right
        refine ⟨t, bc, ad, dd, phase4Fold_contains cfg σ settlement transactions t ad dd
          (by rw [hfold]), ?_⟩
        simp only [phase4Step]
        rw [if_neg h1, hfold]
        exact if_pos hmin
      · left
        simp only [phase4Step]
        rw [if_neg h1, hfold]
        exact if_neg hmin

/-- A phase-5 step either leaves the state unchanged or emits exactly one
adjustment match for an unmatched adjustment; it never touches the transaction
or settlement exclusion sets. -/
theorem phase5Step_shape (cfg : Settings) (transactions : List Transaction) (σ : RunState)
    (adjustment : Adjustment) :
    phase5Step cfg transactions σ adjustment = σ ∨
    ∃ transaction confidence amount_diff day_diff reasons,
      σ.matched_adjustment_ids.contains adjustment.id = false ∧
      phase5Step cfg transactions σ adjustment =
        { σ with
          matched_adjustment_ids := adjustment.id :: σ.matched_adjustment_ids
          results := σ.results ++
            [mkPhase5Match transaction adjustment confidence amount_diff day_diff reasons] } := by
  by_cases h1 : σ.matched_adjustment_ids.contains adjustment.id
  · left
    simp only [phase5Step]
    rw [if_pos h1]
  · rcases hfold : phase5Fold (if adjustment.type = "chargeback" then cfg.CHARGEBACK_WINDOW_DAYS
      else cfg.REFUND_WINDOW_DAYS) adjustment transactions with ⟨bc, _ | ⟨t, ad, dd, rs⟩⟩
    · left
      simp only [phase5Step]
      rw [if_neg h1, hfold]
    · right
      refine ⟨t, bc, ad, dd, rs, by simpa using h1, ?_⟩
      simp only [phase5Step]
      rw [if_neg h1, hfold]

/-! ### Uniqueness invariants (claim C1) -/

/-- The settlement-side count over a one-element append. -/
theorem settlementMatchCount_append (tid : String) (rs : List MatchResult) (m : MatchResult) :
    settlementMatchCount tid (rs ++ [m]) =
      settlementMatchCount tid rs +
        (if m.transaction_id == some tid && m.settlement_id.isSome then 1 else 0) := by
  simp only [settlementMatchCount, List.filter_append, List.length_append]
  congr 1
  by_cases h : m.transaction_id == some tid && m.settlement_id.isSome
  · simp [List.filter_singleton, h]
  · simp [List.filter_singleton, h]

/-- The adjustment-id count over a one-element append. -/
theorem adjustmentMatchCount_append (aid : String) (rs : List MatchResult) (m : MatchResult) :
    adjustmentMatchCount aid (rs ++ [m]) =
      adjustmentMatchCount aid rs + (if m.adjustment_id == some aid then 1 else 0) := by
  simp only [adjustmentMatchCount, List.filter_append, List.length_append]
  congr 1
  by_cases h : m.adjustment_id == some aid
  · simp [List.filter_singleton, h]
  · simp [List.filter_singleton, h]

/-- Extending the state with a settlement match for a transaction that is not
yet in the exclusion set preserves `SettlementUniqInv`. -/
theorem settlementUniqInv_extend {tid : String} {matched : List String}
    {rs : List MatchResult} {tId : String} (m : MatchResult)
    (hmt : m.transaction_id = some tId)
    (hfree : matched.contains tId = false)
    (h1 : settlementMatchCount tid rs ≤ 1)
    (h2 : 1 ≤ settlementMatchCount tid rs → tid ∈ matched) :
    settlementMatchCount tid (rs ++ [m]) ≤ 1 ∧
    (1 ≤ settlementMatchCount tid (rs ++ [m]) → tid ∈ tId :: matched) := by
  rw [settlementMatchCount_append]
  by_cases heq : tId = tid
  · subst heq
    have hnot : tId ∉ matched := by simpa using hfree
    have h0 : settlementMatchCount tId rs = 0 := by
      by_contra h
      exact hnot (h2 (Nat.one_le_iff_ne_zero.mpr h))
    rw [h0]
    constructor
    · split <;> simp
    · intro _
      exact List.mem_cons_self tId matched
  · have : (m.transaction_id == some tid) = false := by
      rw [hmt]
      simpa using heq
    rw [this]
    simp only [Bool.false_and, if_neg (by simp : ¬ (false = true)), Nat.add_zero]
    exact ⟨h1, fun h => List.mem_cons_of_mem _ (h2 h)⟩

/-- Extending the state with an adjustment match for an adjustment that is not
yet in the exclusion set preserves `AdjustmentUniqInv`. -/
theorem adjustmentUniqInv_extend {aid : String} {matched : List String}
    {rs : List MatchResult} {aId : String} (m : MatchResult)
    (hma : m.adjustment_id = some aId)
    (hfree : matched.contains aId = false)
    (h1 : adjustmentMatchCount aid rs ≤ 1)
    (h2 : 1 ≤ adjustmentMatchCount aid rs → aid ∈ matched) :
    adjustmentMatchCount aid (rs ++ [m]) ≤ 1 ∧
    (1 ≤ adjustmentMatchCount aid (rs ++ [m]) → aid ∈ aId :: matched) := by
  rw [adjustmentMatchCount_append]
  by_cases heq : aId = aid
  · subst heq
    have hnot : aId ∉ matched := by simpa using hfree
    have h0 : adjustmentMatchCount aId rs = 0 := by
      by_contra h
      exact hnot (h2 (Nat.one_le_iff_ne_zero.mpr h))
    rw [h0]
    constructor
    · split <;> simp
    · intro _
      exact List.mem_cons_self aId matched
  · have : (m.adjustment_id == some aid) = false := by
      rw [hma]
      simpa using heq
    rw [this, if_neg (by simp : ¬ (false = true)), Nat.add_zero]
    exact ⟨h1, fun h => List.mem_cons_of_mem _ (h2 h)⟩

/-- Appending a match with no settlement side leaves the settlement-side
count unchanged. -/
theorem settlementMatchCount_append_noSettlement (tid : String) (rs : List MatchResult)
    (m : MatchResult) (h : m.settlement_id = none) :
    settlementMatchCount tid (rs ++ [m]) = settlementMatchCount tid rs := by
  rw [settlementMatchCount_append, h]
  simp

/-- Appending a match with no adjustment side leaves the adjustment-id count
unchanged. -/
theorem adjustmentMatchCount_append_noAdjustment (aid : String) (rs : List MatchResult)
    (m : MatchResult) (h : m.adjustment_id = none) :
    adjustmentMatchCount aid (rs ++ [m]) = adjustmentMatchCount aid rs := by
  rw [adjustmentMatchCount_append, h]
  simp

/-- Appending a settlement-side-free match preserves the settlement-uniqueness
components. -/
theorem settlementUniq_preserved_noSettle (tid : String) (matched : List String)
    (rs : List MatchResult) (m : MatchResult) (hm : m.settlement_id = none)
    (h1 : settlementMatchCount tid rs ≤ 1)
    (h2 : 1 ≤ settlementMatchCount tid rs → tid ∈ matched) :
    settlementMatchCount tid (rs ++ [m]) ≤ 1 ∧
    (1 ≤ settlementMatchCount tid (rs ++ [m]) → tid ∈ matched) := by
  rw [settlementMatchCount_append_noSettlement tid rs m hm]
  exact ⟨h1, h2⟩

/-- Appending an adjustment-side-free match preserves the
adjustment-uniqueness components. -/
theorem adjustmentUniq_preserved_noAdj (aid : String) (matched : List String)
    (rs : List MatchResult) (m : MatchResult) (hm : m.adjustment_id = none)
    (h1 : adjustmentMatchCount aid rs ≤ 1)
    (h2 : 1 ≤ adjustmentMatchCount aid rs → aid ∈ matched) :
    adjustmentMatchCount aid (rs ++ [m]) ≤ 1 ∧
    (1 ≤ adjustmentMatchCount aid (rs ++ [m]) → aid ∈ matched) := by
  rw [adjustmentMatchCount_append_noAdjustment aid rs m hm]
  exact ⟨h1, h2⟩

/-- A phase-1 step preserves both uniqueness invariants. -/
theorem phase1Step_uniqInv (transactions : List Transaction) (tid aid : String)
    (σ : RunState) (settlement : Settlement)
    (h : SettlementUniqInv tid σ ∧ AdjustmentUniqInv aid σ) :
    SettlementUniqInv tid (phase1Step transactions σ settlement) ∧
    AdjustmentUniqInv aid (phase1Step transactions σ settlement) := by
  rcases phase1Step_shape transactions σ settlement with heq | ⟨t, -, hfree, -, -, -, heq⟩
  · rw [heq]; exact h
  · rw [heq]
    exact ⟨settlementUniqInv_extend (mkPhase1Match t settlement) rfl hfree h.1.1 h.1.2,
      adjustmentUniq_preserved_noAdj aid σ.matched_adjustment_ids σ.results
        (mkPhase1Match t settlement) rfl h.2.1 h.2.2⟩

/-- A phase-2 step preserves both uniqueness invariants. -/
theorem phase2Step_uniqInv (cfg : Settings) (transactions : List Transaction)
    (tid aid : String) (σ : RunState) (settlement : Settlement)
    (h : SettlementUniqInv tid σ ∧ AdjustmentUniqInv aid σ) :
    SettlementUniqInv tid (phase2Step cfg transactions σ settlement) ∧
    AdjustmentUniqInv aid (phase2Step cfg transactions σ settlement) := by
  rcases phase2Step_shape cfg transactions σ settlement with heq | ⟨t, c, ad, dd, hfree, heq⟩
  · rw [heq]; exact h
  · rw [heq]
    exact ⟨settlementUniqInv_extend (mkPhase2Match t settlement c ad dd) rfl hfree h.1.1 h.1.2,
      adjustmentUniq_preserved_noAdj aid σ.matched_adjustment_ids σ.results
        (mkPhase2Match t settlement c ad dd) rfl h.2.1 h.2.2⟩

/-- A phase-3 step preserves both uniqueness invariants. -/
theorem phase3Step_uniqInv (cfg : Settings) (transactions : List Transaction)
    (tid aid : String) (σ : RunState) (settlement : Settlement)
    (h : SettlementUniqInv tid σ ∧ AdjustmentUniqInv aid σ) :
    SettlementUniqInv tid (phase3Step cfg transactions σ settlement) ∧
    AdjustmentUniqInv aid (phase3Step cfg transactions σ settlement) := by
  rcases phase3Step_shape cfg transactions σ settlement with heq | ⟨t, c, ad, dd, rs, hfree, heq⟩
  · rw [heq]; exact h
  · rw [heq]
    exact ⟨settlementUniqInv_extend (mkPhase3Match t settlement c ad dd rs) rfl hfree h.1.1 h.1.2,
      adjustmentUniq_preserved_noAdj aid σ.matched_adjustment_ids σ.results
        (mkPhase3Match t settlement c ad dd rs) rfl h.2.1 h.2.2⟩

/-- A phase-4 step preserves both uniqueness invariants. -/
theorem phase4Step_uniqInv (cfg : Settings) (transactions : List Transaction)
    (tid aid : String) (σ : RunState) (settlement : Settlement)
    (h : SettlementUniqInv tid σ ∧ AdjustmentUniqInv aid σ) :
    SettlementUniqInv tid (phase4Step cfg transactions σ settlement) ∧
    AdjustmentUniqInv aid (phase4Step cfg transactions σ settlement) := by
  rcases phase4Step_shape cfg transactions σ settlement with heq | ⟨t, c, ad, dd, hfree, heq⟩
  · rw [heq]; exact h
  · rw [heq]
    exact ⟨settlementUniqInv_extend (mkPhase4Match t settlement c ad dd) rfl hfree h.1.1 h.1.2,
      adjustmentUniq_preserved_noAdj aid σ.matched_adjustment_ids σ.results
        (mkPhase4Match t settlement c ad dd) rfl h.2.1 h.2.2⟩

/-- A phase-5 step preserves both uniqueness invariants. -/
theorem phase5Step_uniqInv (cfg : Settings) (transactions : List Transaction)
    (tid aid : String) (σ : RunState) (adjustment : Adjustment)
    (h : SettlementUniqInv tid σ ∧ AdjustmentUniqInv aid σ) :
    SettlementUniqInv tid (phase5Step cfg transactions σ adjustment) ∧
    AdjustmentUniqInv aid (phase5Step cfg transactions σ adjustment) := by
  rcases phase5Step_shape cfg transactions σ adjustment with heq | ⟨t, c, ad, dd, rs, hfree, heq⟩
  · rw [heq]; exact h
  · rw [heq]
    exact ⟨settlementUniq_preserved_noSettle tid σ.matched_transaction_ids σ.results
        (mkPhase5Match t adjustment c ad dd rs) rfl h.1.1 h.1.2,
      adjustmentUniqInv_extend (mkPhase5Match t adjustment c ad dd rs) rfl hfree h.2.1 h.2.2⟩

/-- Both uniqueness invariants hold at the end of every run. -/
theorem run_uniqInv (cfg : Settings) (transactions : List Transaction)
    (settlements : List Settlement) (adjustments : List Adjustment) (tid aid : String) :
    SettlementUniqInv tid (run_reconciliation cfg transactions settlements adjustments) ∧
    AdjustmentUniqInv aid (run_reconciliation cfg transactions settlements adjustments) := by
  have hinit : SettlementUniqInv tid initialRunState ∧ AdjustmentUniqInv aid initialRunState := by
    constructor <;> constructor <;>
      simp [SettlementUniqInv, AdjustmentUniqInv, settlementMatchCount, adjustmentMatchCount,
        initialRunState]
  unfold run_reconciliation stateAfterPhase4 stateAfterPhase3 stateAfterPhase2 stateAfterPhase1
  unfold phase5_adjustment_match phase4_cross_currency_match phase3_fuzzy_match
    phase2_amount_date_match phase1_exact_id_match
  exact foldlPreserve (phase5Step_uniqInv cfg transactions tid aid) adjustments _
    (foldlPreserve (phase4Step_uniqInv cfg transactions tid aid) settlements _
      (foldlPreserve (phase3Step_uniqInv cfg transactions tid aid) settlements _
        (foldlPreserve (phase2Step_uniqInv cfg transactions tid aid) settlements _
          (foldlPreserve (phase1Step_uniqInv transactions tid aid) settlements _ hinit))))

/-- C1 (amended): over a whole run, each transaction id appears in at most one
MatchResult with `settlement_id` set, and each adjustment id appears in at
most one MatchResult; a transaction id may however appear in several
adjustment-side MatchResults, so the per-transaction bound holds only on the
settlement side. -/
theorem C1_match_uniqueness (cfg : Settings) (transactions : List Transaction)
    (settlements : List Settlement) (adjustments : List Adjustment) (tid aid : String) :
    settlementMatchCount tid
      (run_reconciliation cfg transactions settlements adjustments).results ≤ 1 ∧
    adjustmentMatchCount aid
      (run_reconciliation cfg transactions settlements adjustments).results ≤ 1 :=
  ⟨(run_uniqInv cfg transactions settlements adjustments tid aid).1.1,
   (run_uniqInv cfg transactions settlements adjustments tid aid).2.1⟩

/-- C1 counterexample: two refunds that both reference `txn_001` each produce
a Phase-5 MatchResult for the same transaction id `T1`, so a transaction id
can appear in two MatchResults with `adjustment_id` set. -/
theorem C1_counterexample :
    adjustmentSideCount "T1" (run_reconciliation defaultSettings [c1Transaction] []
      [c1Adjustment1, c1Adjustment2]).results = 2 ∧
    ¬ adjustmentSideCount "T1" (run_reconciliation defaultSettings [c1Transaction] []
      [c1Adjustment1, c1Adjustment2]).results ≤ 1 :=
  of_decide_eq_true (by with_unfolding_all rfl)

/-- C2 counterexample: when the final persist fails, a pre-existing stored
MatchResult is gone (the clear committed separately), so the stored set is
not the pre-run state. -/
theorem C2_counterexample :
    run_reconciliation_committed defaultSettings [] [] [] { committed := [c2PreMatch] } false ≠
      { committed := [c2PreMatch] } :=
  of_decide_eq_true (by with_unfolding_all rfl)

/-- C2 (amended): the clear of previous MatchResults commits before matching,
so a run whose persist step fails leaves the store empty — not unchanged —
while a successful run stores exactly the run's matches. -/
theorem C2_clear_commits_first (cfg : Settings) (transactions : List Transaction)
    (settlements : List Settlement) (adjustments : List Adjustment) (st : MatchStore) :
    run_reconciliation_committed cfg transactions settlements adjustments st false =
      { committed := [] } ∧
    run_reconciliation_committed cfg transactions settlements adjustments st true =
      { committed := (run_reconciliation cfg transactions settlements adjustments).results } :=
  ⟨rfl, rfl⟩

/-- C5 counterexample: scenario S2 produces one MatchResult whose confidence
is 86 (base 80, +5 amount bonus for a 3% variance, +1 date bonus for a
two-day difference), not the 88 the specification expects. -/
theorem C5_counterexample :
    (run_reconciliation defaultSettings [s2Transaction] [s2Settlement] []).results.map
        (fun m => m.confidence_score) = [86] ∧
    (86 : ℤ) ≠ 88 :=
  of_decide_eq_true (by with_unfolding_all rfl)

/-- C5 (amended): scenario S2 emits exactly one MatchResult with confidence
86, status `matched`, amount difference 30.00, date difference 2 days, and
reasons including `amount_variance_detected`. -/
theorem C5_scenario_S2 :
    (run_reconciliation defaultSettings [s2Transaction] [s2Settlement] []).results.map
        (fun m => (m.confidence_score, m.status, m.amount_difference, m.date_difference_days)) =
      [(86, "matched", 30, 2)] ∧
    ∀ m ∈ (run_reconciliation defaultSettings [s2Transaction] [s2Settlement] []).results,
      "amount_variance_detected" ∈ m.match_reasons :=
  of_decide_eq_true (by with_unfolding_all rfl)

/-- C6 counterexample: an amount-mismatch discrepancy that is 10 days old is
reported with the hard-coded priority `medium`, although the claimed rule
(age over 7 days) demands `high`. -/
theorem C6_counterexample :
    discrepancyPriority 0 (.amountMismatch c6Mismatch) = "medium" ∧
    specPriorityRule (convert_to_usd c6Mismatch.amount_difference "USD")
      (discrepancyAgeDays 0 (.amountMismatch c6Mismatch)) = "high" ∧
    ("medium" : String) ≠ "high" :=
  of_decide_eq_true (by with_unfolding_all rfl)

/-- C6 (amended): the USD-amount/age priority rule governs the three unmatched
categories — with every adjustment discrepancy forced to `high` — while an
amount-mismatch discrepancy always has priority `medium`. -/
theorem C6_priority_rule (now : ℤ) (t : Transaction) (s : Settlement) (a : Adjustment)
    (m : MatchResult) :
    discrepancyPriority now (.unmatchedTransaction t) =
      specPriorityRule (convert_to_usd t.amount t.currency)
        (discrepancyAgeDays now (.unmatchedTransaction t)) ∧
    discrepancyPriority now (.unmatchedSettlement s) =
      specPriorityRule (convert_to_usd s.amount s.currency)
        (discrepancyAgeDays now (.unmatchedSettlement s)) ∧
    discrepancyPriority now (.unmatchedAdjustment a) = "high" ∧
    discrepancyPriority now (.amountMismatch m) = "medium" :=
  ⟨rfl, rfl, rfl, rfl⟩

/-- C8: two runs over identical record lists under the same configuration
produce identical MatchResult rows, compared order-insensitively as
multisets. -/
theorem C8_determinism (cfg : Settings) (transactions1 transactions2 : List Transaction)
    (settlements1 settlements2 : List Settlement) (adjustments1 adjustments2 : List Adjustment)
    (hT : transactions1 = transactions2) (hS : settlements1 = settlements2)
    (hA : adjustments1 = adjustments2) :
    ((run_reconciliation cfg transactions1 settlements1 adjustments1).results :
        Multiset MatchResult) =
      ((run_reconciliation cfg transactions2 settlements2 adjustments2).results :
        Multiset MatchResult) := by
  subst hT
  subst hS
  subst hA
  rfl

/-- C8 witness: the determinism theorem applied to the concrete S2 inputs. -/
theorem C8_witness :
    ((run_reconciliation defaultSettings [s2Transaction] [s2Settlement] []).results :
        Multiset MatchResult) =
      ((run_reconciliation defaultSettings [s2Transaction] [s2Settlement] []).results :
        Multiset MatchResult) :=
  C8_determinism defaultSettings [s2Transaction] [s2Transaction] [s2Settlement] [s2Settlement]
    [] [] rfl rfl rfl

/-- C10: the chargeback-rate counter is total — a missing or zero transaction
count yields 0.0 instead of dividing by zero, and otherwise the result is the
chargeback count over the transaction count rounded to 4 decimal places. -/
theorem C10_chargeback_rate_total (total_txns total_chargebacks : Option ℕ) :
    (total_txns.getD 0 = 0 → calculate_chargeback_rate total_txns total_chargebacks = 0) ∧
    (total_txns.getD 0 ≠ 0 → calculate_chargeback_rate total_txns total_chargebacks =
      roundTo4 ((total_chargebacks.getD 0 : ℚ) / (total_txns.getD 0 : ℚ))) := by
  constructor
  · intro h
    simp [calculate_chargeback_rate, h]
  · intro h
    simp [calculate_chargeback_rate, h]

/-- C10 witness: the totality theorem applied at a missing count and at a
concrete 2-of-5 chargeback ratio. -/
theorem C10_witness :
    calculate_chargeback_rate none (some 3) = 0 ∧
    calculate_chargeback_rate (some 5) (some 2) =
      roundTo4 (((some 2 : Option ℕ).getD 0 : ℚ) / ((some 5 : Option ℕ).getD 0 : ℚ)) :=
  ⟨(C10_chargeback_rate_total none (some 3)).1 (by decide),
   (C10_chargeback_rate_total (some 5) (some 2)).2 (by decide)⟩

/-! ### Status coupling (claim C3) -/

/-- The emitted status of phases 2, 3 and 5 couples to the hard-coded 80. -/
theorem status_ite_coupled (confidence : ℤ) :
    ((if confidence ≥ 80 then "matched" else "pending_review") = "matched" ↔
      80 ≤ confidence) := by
  by_cases h : confidence ≥ 80
  · rw [if_pos h]
    exact iff_of_true rfl h
  · rw [if_neg h]
    exact iff_of_false (by decide) h

/-- A phase-1 step preserves status coupling. -/
theorem phase1Step_coupled (transactions : List Transaction) (σ : RunState)
    (settlement : Settlement) (h : ResultsCoupled σ) :
    ResultsCoupled (phase1Step transactions σ settlement) := by
  rcases phase1Step_shape transactions σ settlement with heq | ⟨t, -, -, -, -, -, heq⟩
  · rw [heq]; exact h
  · rw [heq]
    exact forallMemAppendSingle h (iff_of_true rfl (by norm_num [mkPhase1Match]))

/-- A phase-2 step preserves status coupling. -/
theorem phase2Step_coupled (cfg : Settings) (transactions : List Transaction) (σ : RunState)
    (settlement : Settlement) (h : ResultsCoupled σ) :
    ResultsCoupled (phase2Step cfg transactions σ settlement) := by
  rcases phase2Step_shape cfg transactions σ settlement with heq | ⟨t, c, ad, dd, -, heq⟩
  · rw [heq]; exact h
  · rw [heq]
    exact forallMemAppendSingle h (status_ite_coupled c)

/-- A phase-3 step preserves status coupling. -/
theorem phase3Step_coupled (cfg : Settings) (transactions : List Transaction) (σ : RunState)
    (settlement : Settlement) (h : ResultsCoupled σ) :
    ResultsCoupled (phase3Step cfg transactions σ settlement) := by
  rcases phase3Step_shape cfg transactions σ settlement with heq | ⟨t, c, ad, dd, rs, -, heq⟩
  · rw [heq]; exact h
  · rw [heq]
    exact forallMemAppendSingle h (status_ite_coupled c)

/-- A phase-4 step only appends `pending_review` rows. -/
theorem phase4Step_extendPending (cfg : Settings) (transactions : List Transaction)
    (base : List MatchResult) (σ : RunState) (settlement : Settlement)
    (h : ResultsExtendPending base σ) :
    ResultsExtendPending base (phase4Step cfg transactions σ settlement) := by
  rcases phase4Step_shape cfg transactions σ settlement with heq | ⟨t, c, ad, dd, -, heq⟩
  · rw [heq]; exact h
  · rw [heq]
    obtain ⟨r, hr, hall⟩ := h
    exact ⟨r ++ [mkPhase4Match t settlement c ad dd],
      by rw [hr, List.append_assoc], forallMemAppendSingle hall rfl⟩

/-- A phase-5 step only appends status-coupled rows. -/
theorem phase5Step_extendCoupled (cfg : Settings) (transactions : List Transaction)
    (base : List MatchResult) (σ : RunState) (adjustment : Adjustment)
    (h : ResultsExtendCoupled base σ) :
    ResultsExtendCoupled base (phase5Step cfg transactions σ adjustment) := by
  rcases phase5Step_shape cfg transactions σ adjustment with heq | ⟨t, c, ad, dd, rs, -, heq⟩
  · rw [heq]; exact h
  · rw [heq]
    obtain ⟨r, hr, hall⟩ := h
    exact ⟨r ++ [mkPhase5Match t adjustment c ad dd rs],
      by rw [hr, List.append_assoc], forallMemAppendSingle hall (status_ite_coupled c)⟩

/-- Every result present after phase 3 is status-coupled to 80. -/
theorem stateAfterPhase3_coupled (cfg : Settings) (transactions : List Transaction)
    (settlements : List Settlement) :
    ResultsCoupled (stateAfterPhase3 cfg transactions settlements) := by
  unfold stateAfterPhase3 stateAfterPhase2 stateAfterPhase1
  unfold phase3_fuzzy_match phase2_amount_date_match phase1_exact_id_match
  exact foldlPreserve (phase3Step_coupled cfg transactions) settlements _
    (foldlPreserve (phase2Step_coupled cfg transactions) settlements _
      (foldlPreserve (phase1Step_coupled transactions) settlements _
        (by intro m hm; simp [initialRunState] at hm)))

/-- Phase 4 extends the phase-3 results by `pending_review` rows only. -/
theorem stateAfterPhase4_extendPending (cfg : Settings) (transactions : List Transaction)
    (settlements : List Settlement) :
    ResultsExtendPending (stateAfterPhase3 cfg transactions settlements).results
      (stateAfterPhase4 cfg transactions settlements) := by
  unfold stateAfterPhase4
  unfold phase4_cross_currency_match
  exact foldlPreserve (phase4Step_extendPending cfg transactions _) settlements _
    ⟨[], (List.append_nil _).symm, by simp⟩

/-- Phase 5 extends the phase-4 results by status-coupled rows only. -/
theorem run_extendCoupled (cfg : Settings) (transactions : List Transaction)
    (settlements : List Settlement) (adjustments : List Adjustment) :
    ResultsExtendCoupled (stateAfterPhase4 cfg transactions settlements).results
      (run_reconciliation cfg transactions settlements adjustments) := by
  unfold run_reconciliation
  unfold phase5_adjustment_match
  exact foldlPreserve (phase5Step_extendCoupled cfg transactions _) adjustments _
    ⟨[], (List.append_nil _).symm, by simp⟩

/-- C3 counterexample: with the valid configuration value
`MIN_CONFIDENCE_FOR_AUTO_MATCH = 70`, a phase-3 fuzzy match at confidence 70
is emitted with status `pending_review`, so `status = matched` is not
equivalent to `confidence_score ≥ MIN_CONFIDENCE_FOR_AUTO_MATCH`. -/
theorem C3_counterexample :
    ¬ statusCouplingClaim c3Settings [c3Transaction] [c3Settlement] [] := by
  unfold statusCouplingClaim
  exact of_decide_eq_false (by with_unfolding_all rfl)

/-- C3 (amended): for every configuration, `status = matched` iff
`confidence_score ≥ 80` — the hard-coded threshold equal to the default
`MIN_CONFIDENCE_FOR_AUTO_MATCH` — outside the phase-4 segment of the emission
list, while every phase-4 row is `pending_review`; the claim as stated holds
only when `MIN_CONFIDENCE_FOR_AUTO_MATCH = 80`. -/
theorem C3_status_coupling (cfg : Settings) (transactions : List Transaction)
    (settlements : List Settlement) (adjustments : List Adjustment) :
    (∀ m ∈ (stateAfterPhase4 cfg transactions settlements).results.drop
        (stateAfterPhase3 cfg transactions settlements).results.length,
      m.status = "pending_review") ∧
    (∀ m ∈ (stateAfterPhase3 cfg transactions settlements).results,
      (m.status = "matched" ↔ 80 ≤ m.confidence_score)) ∧
    (∀ m ∈ (run_reconciliation cfg transactions settlements adjustments).results.drop
        (stateAfterPhase4 cfg transactions settlements).results.length,
      (m.status = "matched" ↔ 80 ≤ m.confidence_score)) := by
  refine ⟨?_, stateAfterPhase3_coupled cfg transactions settlements, ?_⟩
  · obtain ⟨r, hr, hall⟩ := stateAfterPhase4_extendPending cfg transactions settlements
    rw [hr, List.drop_left]
    exact hall
  · obtain ⟨r, hr, hall⟩ := run_extendCoupled cfg transactions settlements adjustments
    rw [hr, List.drop_left]
    exact hall

/-! ### Phase dominance (claim C4) -/

/-- The transaction exclusion set only ever grows during phase 1. -/
theorem phase1Step_matchedT_mono (transactions : List Transaction) (σ : RunState)
    (settlement : Settlement) {x : String} (hx : x ∈ σ.matched_transaction_ids) :
    x ∈ (phase1Step transactions σ settlement).matched_transaction_ids := by
  rcases phase1Step_shape transactions σ settlement with heq | ⟨t, -, -, -, -, -, heq⟩
  · rw [heq]; exact hx
  · rw [heq]; exact List.mem_cons_of_mem _ hx

/-- Processing a settlement that exactly references a still-unmatched
transaction `t` (with a unique external id) marks `t` as matched. -/
theorem phase1Step_marks_at (transactions : List Transaction) (t : Transaction)
    (s : Settlement) (σ : RunState)
    (ht : t ∈ transactions)
    (huniq : ∀ t' ∈ transactions, t'.transaction_id = t.transaction_id → t' = t)
    (hne : t.transaction_id ≠ "")
    (href : s.transaction_reference = some t.transaction_id)
    (hcur : s.currency = t.currency)
    (hTfree : t.id ∉ σ.matched_transaction_ids)
    (hSfree : s.id ∉ σ.matched_settlement_ids) :
    t.id ∈ (phase1Step transactions σ s).matched_transaction_ids := by
  have h1 : ¬ σ.matched_settlement_ids.contains s.id = true := by simpa using hSfree
  have h2 : strTruthy s.transaction_reference = true := by
    rw [href]
    simp [strTruthy, isEmpty_false_of_ne_empty hne]
  have h2' : ¬ ((!strTruthy s.transaction_reference) = true) := by simp [h2]
  have hcont : σ.matched_transaction_ids.contains t.id = false := by simpa using hTfree
  have hpt : (!σ.matched_transaction_ids.contains t.id &&
      (s.transaction_reference == some t.transaction_id) &&
      (s.currency == t.currency)) = true := by
    simp [hcont, href, hcur, hTfree]
  have hsome : (transactions.find? (fun transaction =>
      !σ.matched_transaction_ids.contains transaction.id &&
      (s.transaction_reference == some transaction.transaction_id) &&
      (s.currency == transaction.currency))).isSome := by
    rw [List.find?_isSome]
    exact ⟨t, ht, hpt⟩
  rcases hfind : transactions.find? (fun transaction =>
      !σ.matched_transaction_ids.contains transaction.id &&
      (s.transaction_reference == some transaction.transaction_id) &&
      (s.currency == transaction.currency)) with _ | t''
  · rw [hfind] at hsome
    simp at hsome
  · have hp := List.find?_some hfind
    simp only [Bool.and_eq_true, Bool.not_eq_true', beq_iff_eq] at hp
    have hid : t'' = t := by
      refine huniq t'' (List.mem_of_find?_eq_some hfind) ?_
      have h3 := hp.1.2
      rw [href] at h3
      exact (Option.some.inj h3).symm
    subst hid
    simp only [phase1Step]
    rw [if_neg h1, if_neg h2', hfind]
    exact List.mem_cons_self _ _

/-- After phase 1 has processed a settlement list containing a settlement `s`
that exactly references `t` — with database-unique settlement ids and
transaction external ids — the transaction `t` is in the exclusion set. -/
theorem phase1_fold_marks (transactions : List Transaction) (t : Transaction) (s : Settlement)
    (ht : t ∈ transactions)
    (huniq : ∀ t' ∈ transactions, t'.transaction_id = t.transaction_id → t' = t)
    (hne : t.transaction_id ≠ "")
    (href : s.transaction_reference = some t.transaction_id)
    (hcur : s.currency = t.currency) :
    ∀ (L : List Settlement), s ∈ L → (L.map Settlement.id).Nodup →
      ∀ σ : RunState, (t.id ∈ σ.matched_transaction_ids ∨ s.id ∉ σ.matched_settlement_ids) →
        t.id ∈ (L.foldl (phase1Step transactions) σ).matched_transaction_ids := by
  intro L
  induction L with
  | nil => intro h; exact absurd h (List.not_mem_nil s)
  | cons s' L' ih =>
    intro hmem hnodup σ hinv
    rcases List.mem_cons.mp hmem with hcase | hmem'
    · subst hcase
      by_cases hT : t.id ∈ σ.matched_transaction_ids
      · exact foldlPreserve (fun σ' s'' h => phase1Step_matchedT_mono transactions σ' s'' h)
          L' _ (phase1Step_matchedT_mono transactions σ s hT)
      · rcases hinv with hT' | hS
        · exact absurd hT' hT
        · exact foldlPreserve (fun σ' s'' h => phase1Step_matchedT_mono transactions σ' s'' h)
            L' _ (phase1Step_marks_at transactions t s σ ht huniq hne href hcur hT hS)
    · refine ih hmem' (List.nodup_cons.mp (by simpa using hnodup)).2 (phase1Step transactions σ s') ?_
      rcases phase1Step_shape transactions σ s' with heq | ⟨t'', -, -, -, -, -, heq⟩
      · rw [heq]; exact hinv
      · rw [heq]
        by_cases hids : t''.id = t.id
        · left
          exact List.mem_cons.mpr (Or.inl hids.symm)
        · rcases hinv with hT | hS
          · left
            exact List.mem_cons_of_mem _ hT
          · right
            intro hmem2
            rcases List.mem_cons.mp hmem2 with h1 | h2
            · have hs'id : s'.id ∉ L'.map Settlement.id :=
                (List.nodup_cons.mp (by simpa using hnodup)).1
              exact hs'id (h1 ▸ List.mem_map_of_mem Settlement.id hmem')
            · exact hS h2

/-- A phase-2 step cannot re-match an excluded transaction id. -/
theorem phase2Step_noNewTid (cfg : Settings) (transactions : List Transaction)
    (tId : String) (base : List MatchResult) (σ : RunState) (settlement : Settlement)
    (h : NoNewTid tId base σ) : NoNewTid tId base (phase2Step cfg transactions σ settlement) := by
  rcases phase2Step_shape cfg transactions σ settlement with heq | ⟨t, c, ad, dd, hfree, heq⟩
  · rw [heq]; exact h
  · rw [heq]
    obtain ⟨hmemT, r, hr, hall⟩ := h
    refine ⟨List.mem_cons_of_mem _ hmemT, r ++ [mkPhase2Match t settlement c ad dd],
      by rw [hr, List.append_assoc], forallMemAppendSingle hall ?_⟩
    intro hcontra
    have hid : t.id = tId := by simpa [mkPhase2Match] using hcontra
    have hnot : t.id ∉ σ.matched_transaction_ids := by simpa using hfree
    rw [hid] at hnot
    exact hnot hmemT

/-- A phase-3 step cannot re-match an excluded transaction id. -/
theorem phase3Step_noNewTid (cfg : Settings) (transactions : List Transaction)
    (tId : String) (base : List MatchResult) (σ : RunState) (settlement : Settlement)
    (h : NoNewTid tId base σ) : NoNewTid tId base (phase3Step cfg transactions σ settlement) := by
  rcases phase3Step_shape cfg transactions σ settlement with heq | ⟨t, c, ad, dd, rs, hfree, heq⟩
  · rw [heq]; exact h
  · rw [heq]
    obtain ⟨hmemT, r, hr, hall⟩ := h
    refine ⟨List.mem_cons_of_mem _ hmemT, r ++ [mkPhase3Match t settlement c ad dd rs],
      by rw [hr, List.append_assoc], forallMemAppendSingle hall ?_⟩
    intro hcontra
    have hid : t.id = tId := by simpa [mkPhase3Match] using hcontra
    have hnot : t.id ∉ σ.matched_transaction_ids := by simpa using hfree
    rw [hid] at hnot
    exact hnot hmemT

/-- A phase-4 step cannot re-match an excluded transaction id. -/
theorem phase4Step_noNewTid (cfg : Settings) (transactions : List Transaction)
    (tId : String) (base : List MatchResult) (σ : RunState) (settlement : Settlement)
    (h : NoNewTid tId base σ) : NoNewTid tId base (phase4Step cfg transactions σ settlement) := by
  rcases phase4Step_shape cfg transactions σ settlement with heq | ⟨t, c, ad, dd, hfree, heq⟩
  · rw [heq]; exact h
  · rw [heq]
    obtain ⟨hmemT, r, hr, hall⟩ := h
    refine ⟨List.mem_cons_of_mem _ hmemT, r ++ [mkPhase4Match t settlement c ad dd],
      by rw [hr, List.append_assoc], forallMemAppendSingle hall ?_⟩
    intro hcontra
    have hid : t.id = tId := by simpa [mkPhase4Match] using hcontra
    have hnot : t.id ∉ σ.matched_transaction_ids := by simpa using hfree
    rw [hid] at hnot
    exact hnot hmemT

/-- C4 counterexample: `(c4Transaction1, c4Settlement2)` satisfies the Phase-1
conditions, yet the run's post-phase-1 emissions include a phase-2 match for
`c4Settlement2` (its reference target was claimed by `c4Settlement1`) and a
phase-5 adjustment match for `c4Transaction1`. -/
theorem C4_counterexample :
    c4Settlement2.transaction_reference = some c4Transaction1.transaction_id ∧
    c4Settlement2.currency = c4Transaction1.currency ∧
    ¬ phaseDominanceClaim defaultSettings [c4Transaction1, c4Transaction2]
        [c4Settlement1, c4Settlement2] [c4Adjustment] c4Transaction1 c4Settlement2 := by
  refine ⟨rfl, rfl, ?_⟩
  unfold phaseDominanceClaim
  exact of_decide_eq_false (by with_unfolding_all rfl)

/-- C4 (amended): when a pair `(t, s)` of loaded records satisfies the Phase-1
conditions — with a nonempty reference, database-unique transaction external
ids and settlement primary ids — the transaction `t` is claimed during
phase 1, and no phase 2-4 emission involves `t`; the settlement `s` itself
and phase-5 adjustment matches for `t` are not protected. -/
theorem C4_phase_dominance (cfg : Settings) (transactions : List Transaction)
    (settlements : List Settlement) (t : Transaction) (s : Settlement)
    (ht : t ∈ transactions) (hs : s ∈ settlements)
    (huniq : ∀ t' ∈ transactions, t'.transaction_id = t.transaction_id → t' = t)
    (hne : t.transaction_id ≠ "")
    (href : s.transaction_reference = some t.transaction_id)
    (hcur : s.currency = t.currency)
    (hnodup : (settlements.map Settlement.id).Nodup) :
    ∀ m ∈ (stateAfterPhase4 cfg transactions settlements).results.drop
        (stateAfterPhase1 transactions settlements).results.length,
      m.transaction_id ≠ some t.id := by
  have h1 : t.id ∈ (stateAfterPhase1 transactions settlements).matched_transaction_ids := by
    unfold stateAfterPhase1 phase1_exact_id_match
    exact phase1_fold_marks transactions t s ht huniq hne href hcur settlements hs hnodup
      initialRunState (Or.inr (by simp [initialRunState]))
  have h4 : NoNewTid t.id (stateAfterPhase1 transactions settlements).results
      (stateAfterPhase4 cfg transactions settlements) := by
    unfold stateAfterPhase4 stateAfterPhase3 stateAfterPhase2
    unfold phase4_cross_currency_match phase3_fuzzy_match phase2_amount_date_match
    exact foldlPreserve (phase4Step_noNewTid cfg transactions t.id _) settlements _
      (foldlPreserve (phase3Step_noNewTid cfg transactions t.id _) settlements _
        (foldlPreserve (phase2Step_noNewTid cfg transactions t.id _) settlements _
          ⟨h1, [], (List.append_nil _).symm, by simp⟩))
  obtain ⟨-, r, hr, hall⟩ := h4
  rw [hr, List.drop_left]
  exact hall

/-- C4 witness: the amended dominance theorem applied to the one-transaction,
one-settlement exact-reference scenario, where phase 1 emits the single
match of the run. -/
theorem C4_witness :
    (∀ m ∈ (stateAfterPhase4 defaultSettings [c4Transaction1] [c4Settlement1]).results.drop
        (stateAfterPhase1 [c4Transaction1] [c4Settlement1]).results.length,
      m.transaction_id ≠ some c4Transaction1.id) ∧
    (stateAfterPhase1 [c4Transaction1] [c4Settlement1]).results.length = 1 :=
  ⟨C4_phase_dominance defaultSettings [c4Transaction1] [c4Settlement1] c4Transaction1
    c4Settlement1 (List.mem_singleton.mpr rfl) (List.mem_singleton.mpr rfl)
    (fun t' ht' _ => List.mem_singleton.mp ht') (by decide) rfl rfl (by simp),
   of_decide_eq_true (by with_unfolding_all rfl)⟩

/-! ### Currency pivot round-trip (claim C7) -/

/-- The USD table entry. -/
theorem fxRateToUsd_USD : fxRateToUsd "USD" = 1 :=
  of_decide_eq_true (by with_unfolding_all rfl)

/-- The MXN table entry. -/
theorem fxRateToUsd_MXN : fxRateToUsd "MXN" = 58/1000 := by
  with_unfolding_all rfl

/-- The COP table entry. -/
theorem fxRateToUsd_COP : fxRateToUsd "COP" = 25/100000 := by
  with_unfolding_all rfl

/-- The BRL table entry. -/
theorem fxRateToUsd_BRL : fxRateToUsd "BRL" = 20/100 := by
  with_unfolding_all rfl

/-- Pivoting any amount from a non-USD currency with a nonzero rate into USD
and back returns the amount exactly. -/
theorem convert_pivot (x : ℚ) (c : String) (r : ℚ) (hcU : c ≠ "USD")
    (hr : fxRateToUsd c = r) (hr0 : r ≠ 0) :
    convert_currency (convert_currency x c "USD") "USD" c = x := by
  simp only [convert_currency, convert_to_usd]
  rw [if_neg hcU, if_neg (fun h => hcU h.symm), hr, fxRateToUsd_USD,
    if_neg (one_ne_zero), if_neg hr0]
  field_simp

/-- C7: for every non-negative 2-fractional-digit amount and every currency of
the FX table, converting to USD and back is the identity (the arithmetic is
exact, so the round trip holds within — indeed, without — the declared
2-digit rounding precision). -/
theorem C7_currency_roundtrip (x : ℚ) (c : String) (hx : 0 ≤ x)
    (hcents : ∃ k : ℕ, x = (k : ℚ) / 100)
    (hc : c ∈ FX_RATES_TO_USD.map Prod.fst) :
    convert_currency (convert_currency x c "USD") "USD" c = x := by
  have hc' : c = "USD" ∨ c = "MXN" ∨ c = "COP" ∨ c = "BRL" := by
    simpa [FX_RATES_TO_USD] using hc
  rcases hc' with rfl | rfl | rfl | rfl
  · simp [convert_currency]
  · exact convert_pivot x "MXN" (58/1000) (by decide) fxRateToUsd_MXN (by norm_num)
  · exact convert_pivot x "COP" (25/100000) (by decide) fxRateToUsd_COP (by norm_num)
  · exact convert_pivot x "BRL" (20/100) (by decide) fxRateToUsd_BRL (by norm_num)

/-- C7 witness: the round trip at 123.45 MXN. -/
theorem C7_witness :
    convert_currency (convert_currency ((12345 : ℚ) / 100) "MXN" "USD") "USD" "MXN" =
      (12345 : ℚ) / 100 :=
  C7_currency_roundtrip ((12345 : ℚ) / 100) "MXN" (by norm_num)
    ⟨12345, by norm_num⟩ (by simp [FX_RATES_TO_USD])

/-! ### Suggested-match lists (claim C9) -/

/-- `_score_match` clamps its confidence to at most 100. -/
theorem score_match_le_100 (cfg : Settings) (transaction : Transaction)
    (settlement : Settlement) : (score_match cfg transaction settlement).1 ≤ 100 := by
  simp only [score_match]
  exact min_le_right _ _

/-- A settlement suggestion entry always has confidence above 30 and at
most 100. -/
theorem suggestionOfSettlement_bounds (cfg : Settings) (transaction : Transaction)
    (settlement : Settlement) (x : Suggestion)
    (h : suggestionOfSettlement cfg transaction settlement = some x) :
    30 < x.confidence ∧ x.confidence ≤ 100 := by
  simp only [suggestionOfSettlement] at h
  by_cases hgt : (score_match cfg transaction settlement).1 > 30
  · rw [if_pos hgt] at h
    obtain rfl := Option.some.inj h
    exact ⟨hgt, score_match_le_100 cfg transaction settlement⟩
  · rw [if_neg hgt] at h
    exact Option.noConfusion h

/-- A transaction suggestion entry always has confidence above 30 and at
most 100. -/
theorem suggestionOfTransaction_bounds (cfg : Settings) (settlement : Settlement)
    (transaction : Transaction) (x : Suggestion)
    (h : suggestionOfTransaction cfg settlement transaction = some x) :
    30 < x.confidence ∧ x.confidence ≤ 100 := by
  simp only [suggestionOfTransaction] at h
  by_cases hgt : (score_match cfg transaction settlement).1 > 30
  · rw [if_pos hgt] at h
    obtain rfl := Option.some.inj h
    exact ⟨hgt, score_match_le_100 cfg transaction settlement⟩
  · rw [if_neg hgt] at h
    exact Option.noConfusion h

/-- Sorting by descending confidence and truncating yields a list of at most
`limit` entries, all within the bounds, in non-increasing confidence order. -/
theorem suggestionList_ok (l : List Suggestion) (limit : ℕ)
    (hbounds : ∀ x ∈ l, 30 < x.confidence ∧ x.confidence ≤ 100) :
    ((l.mergeSort (fun a b => decide (b.confidence ≤ a.confidence))).take limit).length ≤ limit ∧
    (∀ x ∈ (l.mergeSort (fun a b => decide (b.confidence ≤ a.confidence))).take limit,
      30 < x.confidence ∧ x.confidence ≤ 100) ∧
    List.Sorted (fun a b => b.confidence ≤ a.confidence)
      ((l.mergeSort (fun a b => decide (b.confidence ≤ a.confidence))).take limit) := by
  refine ⟨?_, ?_, ?_⟩
  · simpa using List.length_take_le limit _
  · intro x hx
    exact hbounds x ((List.mergeSort_perm l _).mem_iff.mp (List.take_subset _ _ hx))
  · have hs := @List.sorted_mergeSort Suggestion
      (fun a b => decide (b.confidence ≤ a.confidence))
      (fun a b c hab hbc => by
        simp only [decide_eq_true_eq] at hab hbc ⊢
        exact le_trans hbc hab)
      (fun a b => by
        simp only [Bool.or_eq_true, decide_eq_true_eq]
        exact le_total b.confidence a.confidence)
      l
    have hs' : List.Sorted (fun a b : Suggestion => b.confidence ≤ a.confidence)
        (l.mergeSort (fun a b => decide (b.confidence ≤ a.confidence))) :=
      hs.imp (fun h => by simpa using h)
    exact List.Pairwise.sublist (List.take_sublist _ _) hs'

/-- C9: each suggested-match list of the reporting service holds at most 3
entries, every entry's confidence is above 30 and at most 100, and entries
are ordered by non-increasing confidence — for both unmatched transactions
and unmatched settlements. -/
theorem C9_suggested_match_lists (cfg : Settings) (transaction : Transaction)
    (settlement : Settlement) (settlements : List Settlement)
    (transactions : List Transaction) :
    ((get_suggested_settlement_matches cfg transaction settlements 3).length ≤ 3 ∧
      (∀ x ∈ get_suggested_settlement_matches cfg transaction settlements 3,
        30 < x.confidence ∧ x.confidence ≤ 100) ∧
      List.Sorted (fun a b => b.confidence ≤ a.confidence)
        (get_suggested_settlement_matches cfg transaction settlements 3)) ∧
    ((get_suggested_transaction_matches cfg settlement transactions 3).length ≤ 3 ∧
      (∀ x ∈ get_suggested_transaction_matches cfg settlement transactions 3,
        30 < x.confidence ∧ x.confidence ≤ 100) ∧
      List.Sorted (fun a b => b.confidence ≤ a.confidence)
        (get_suggested_transaction_matches cfg settlement transactions 3)) := by
  constructor
  · refine suggestionList_ok (settlements.filterMap (suggestionOfSettlement cfg transaction)) 3 ?_
    intro x hx
    obtain ⟨s, -, hf⟩ := List.mem_filterMap.mp hx
    exact suggestionOfSettlement_bounds cfg transaction s x hf
  · refine suggestionList_ok (transactions.filterMap (suggestionOfTransaction cfg settlement)) 3 ?_
    intro x hx
    obtain ⟨t, -, hf⟩ := List.mem_filterMap.mp hx
    exact suggestionOfTransaction_bounds cfg settlement t x hf
